import Mathlib

/-!
Tenant-scoped access control and pagination of the sales CRM backend.

A shallow embedding of the controllers under `src/controllers` and of
`src/utils/paginationUtils.js`, with the document store as explicit state.

Conventions of the embedding.
* An `ObjectId` is a natural number; two ids are equal when their `toString()`
  forms are equal.
* A document is a Lean structure; `Doc.get` reads a field of it by name, the
  way a store filter does.
* A filter is a `Query`: the named conditions of the JavaScript object plus its
  optional `$or` key.  A filter value that is `undefined` in JavaScript reaches
  the store as `null`, which equals no value of a required field.
* A handler returns an `Outcome` together with the store it leaves behind.
* Validation of written values by the schemas (enum, required, unique, trim) is
  not part of the embedding: a request body holds values the schema accepts.
* `populate` replaces a reference by the document it names, or by `null` when
  there is none; list answers are given with their references left as ids,
  except the user answers, where the populated `company_id` is part of the
  object.
* The platform constructor `new RegExp(term, 'i')`, the password hashing and
  the token signing are parameters of the functions that use them.
-/

set_option autoImplicit false

namespace SalesBackend

/-! ## JavaScript values -/

/-- Values found in the fields of a stored document. -/
inductive Val where
  | null
  | num (n : Int)
  | str (s : String)
  | oid (n : Nat)
  | date (t : Nat)
  deriving DecidableEq, Repr

/-- A raw query-string or option value handed to `parseInt`. -/
inductive JsVal where
  | undefined
  | str (s : String)
  | num (n : Int)
  deriving DecidableEq, Repr

/-- The characters `parseInt` skips at the start of its input (WhiteSpace and
LineTerminator of ECMAScript). -/
def isStrWhiteSpaceChar (c : Char) : Bool :=
  let n := c.toNat
  n == 9 || n == 10 || n == 11 || n == 12 || n == 13 || n == 32 || n == 0xA0 ||
  n == 0x1680 || (0x2000 ≤ n && n ≤ 0x200A) || n == 0x2028 || n == 0x2029 ||
  n == 0x202F || n == 0x205F || n == 0x3000 || n == 0xFEFF

/-- The value of `c` as a digit of the given radix, if it is one. -/
def digitVal (radix : Nat) (c : Char) : Option Nat :=
  let n := c.toNat
  let v : Option Nat :=
    if 48 ≤ n && n ≤ 57 then some (n - 48)
    else if 97 ≤ n && n ≤ 122 then some (n - 97 + 10)
    else if 65 ≤ n && n ≤ 90 then some (n - 65 + 10)
    else none
  match v with
  | some d => if d < radix then some d else none
  | none => none

/-- The longest prefix of radix digits, read as a number; `none` when the
prefix is empty. -/
def parseDigits (radix : Nat) : List Char → Option Nat → Option Nat
  | [], acc => acc
  | c :: cs, acc =>
    match digitVal radix c with
    | some d => parseDigits radix cs (some (acc.getD 0 * radix + d))
    | none => acc

/-- Drop the leading white space of the input. -/
def trimStart : List Char → List Char
  | [] => []
  | c :: cs => if isStrWhiteSpaceChar c then trimStart cs else c :: cs

/-- The magnitude part of `parseInt` with no radix argument: an optional
`0x`/`0X` prefix selects radix 16, otherwise radix 10. -/
def parseMagnitude : List Char → Option Nat
  | '0' :: 'x' :: cs => parseDigits 16 cs none
  | '0' :: 'X' :: cs => parseDigits 16 cs none
  | cs => parseDigits 10 cs none

/-- The sign and magnitude of `parseInt` applied to a string, after trimming.
`none` is `NaN`. -/
def parseSigned : List Char → Option Int
  | '-' :: cs => (parseMagnitude cs).map (fun m => -(m : Int))
  | '+' :: cs => (parseMagnitude cs).map (fun m => (m : Int))
  | cs => (parseMagnitude cs).map (fun m => (m : Int))

/-- The most significant decimal digit of a number, found within `fuel`
divisions by 10. -/
def leadingDigit : Nat → Nat → Nat
  | 0, n => n
  | fuel + 1, n => if n < 10 then n else leadingDigit fuel (n / 10)

/-- JavaScript `parseInt(x)` with one argument; `none` is `NaN`.  A number is
converted to its string first: an integer below 10^21 in absolute value is
written with all its digits and read back; from 10^21 on the string is in
exponent form (`1e+21`), of which `parseInt` reads the sign and the leading
digit only.  Integers are exact here, whereas the numbers of JavaScript are
doubles, exact up to 2^53. -/
def parseInt : JsVal → Option Int
  | JsVal.undefined => none
  | JsVal.str s => parseSigned (trimStart s.data)
  | JsVal.num n =>
    if n.natAbs < 10 ^ 21 then some n
    else some (Int.sign n * ((leadingDigit n.natAbs n.natAbs : Nat) : Int))

/-- JavaScript `x || d` for a number `x`: `NaN` and `0` are falsy. -/
def orDefault (x : Option Int) (d : Int) : Int :=
  match x with
  | some n => if n = 0 then d else n
  | none => d

/-! ## Documents, filters and the store interface -/

/-- A stored document: its `_id` and its other fields by name. -/
class Doc (α : Type) where
  id : α → Nat
  field : α → String → Val

/-- Field access by name, as a store filter sees a document. -/
def Doc.get {α : Type} [Doc α] (d : α) (key : String) : Val :=
  if key = "_id" then Val.oid (Doc.id d) else Doc.field d key

/-- One condition on a field of a filter object. -/
inductive Cond where
  | eq (v : Val)
  | isIn (vs : List Val)
  | regex (test : String → Bool)
  | gte (n : Int)

/-- Whether a field value satisfies a condition. -/
def Cond.holds : Cond → Val → Bool
  | Cond.eq v, x => x == v
  | Cond.isIn vs, x => vs.contains x
  | Cond.regex test, Val.str s => test s
  | Cond.regex _, _ => false
  | Cond.gte n, Val.num m => decide (n ≤ m)
  | Cond.gte _, _ => false

/-- A filter object: its named conditions and its `$or` key. -/
structure Query where
  fields : List (String × Cond) := []
  or : Option (List (String × Cond)) := none

/-- JavaScript `query[key] = cond` on the named conditions: replaces the
condition of an existing key, appends a new one. -/
def setField (fs : List (String × Cond)) (key : String) (c : Cond) : List (String × Cond) :=
  if fs.any (fun p => p.1 == key) then fs.map (fun p => if p.1 == key then (key, c) else p)
  else fs ++ [(key, c)]

/-- Whether a document matches a filter: every named condition holds and,
when `$or` is present, one of its alternatives holds. -/
def Query.matches {α : Type} [Doc α] (q : Query) (d : α) : Bool :=
  q.fields.all (fun p => p.2.holds (Doc.get d p.1)) &&
  (match q.or with
   | none => true
   | some alts => alts.any (fun p => p.2.holds (Doc.get d p.1)))

/-- The store operation `model.countDocuments(filter)`. -/
def countDocuments {α : Type} [Doc α] (coll : List α) (q : Query) : Nat :=
  (coll.filter q.matches).length

/-- The order of field values used by `sort`. -/
def Val.le : Val → Val → Bool
  | Val.null, _ => true
  | Val.num _, Val.null => false
  | Val.num a, Val.num b => decide (a ≤ b)
  | Val.num _, _ => true
  | Val.str _, Val.null => false
  | Val.str _, Val.num _ => false
  | Val.str a, Val.str b => decide (a ≤ b)
  | Val.str _, _ => true
  | Val.oid _, Val.null => false
  | Val.oid _, Val.num _ => false
  | Val.oid _, Val.str _ => false
  | Val.oid a, Val.oid b => decide (a ≤ b)
  | Val.oid _, Val.date _ => true
  | Val.date a, Val.date b => decide (a ≤ b)
  | Val.date _, _ => false

/-- Insert a document into an ordered list, before the first document it may
precede. -/
def insertSorted {α : Type} (le : α → α → Bool) (a : α) : List α → List α
  | [] => [a]
  | b :: l => if le a b then a :: b :: l else b :: insertSorted le a l

/-- A deterministic sort by insertion. -/
def sortBy {α : Type} (le : α → α → Bool) : List α → List α
  | [] => []
  | a :: l => insertSorted le a (sortBy le l)

/-- The sort option `{ field: 1 }` or `{ field: -1 }`. -/
structure SortSpec where
  field : String
  dir : Int

/-- The store operation `.sort(spec)`; without a spec the collection order is
kept. -/
def applySort {α : Type} [Doc α] (sort : Option SortSpec) (l : List α) : List α :=
  match sort with
  | none => l
  | some sp =>
    if sp.dir < 0 then sortBy (fun a b => Val.le (Doc.get b sp.field) (Doc.get a sp.field)) l
    else sortBy (fun a b => Val.le (Doc.get a sp.field) (Doc.get b sp.field)) l

/-- The store operation `model.find(filter).skip(skip).limit(limit).sort(sort)`:
the store sorts first, rejects a negative skip, and reads a negative limit as
its absolute value. -/
def findPage {α : Type} [Doc α] (coll : List α) (q : Query) (sort : Option SortSpec)
    (skip limit : Int) : Except String (List α) :=
  if skip < 0 then Except.error "Skip value must be non-negative"
  else Except.ok (((applySort sort (coll.filter q.matches)).drop skip.toNat).take limit.natAbs)

/-! ## `paginateResults` (src/utils/paginationUtils.js) -/

/-- The options object of `paginateResults`.  The `populate` option only
replaces references by the documents they name in the returned page and is not
part of the embedding. -/
structure Options where
  page : JsVal := JsVal.undefined
  limit : JsVal := JsVal.undefined
  search : Option String := none
  searchFields : List String := []
  sort : Option SortSpec := none

/-- The result envelope. -/
structure Envelope (α : Type) where
  data : List α
  page : Int
  limit : Int
  totalPages : Int
  total : Nat
  deriving DecidableEq, Repr

/-- The constructor `new RegExp(pattern, 'i')` of the platform: `none` when the
pattern is not a regular expression (a `SyntaxError`), otherwise its `test`. -/
abbrev RegExpI := String → Option (String → Bool)

/-- The line `const page = parseInt(options.page) || 1`. -/
def effectivePage (o : Options) : Int := orDefault (parseInt o.page) 1

/-- The line `const limit = parseInt(options.limit) || 10`. -/
def effectiveLimit (o : Options) : Int := orDefault (parseInt o.limit) 10

/-- The line `const skip = (page - 1) * limit`. -/
def skipOf (o : Options) : Int := (effectivePage o - 1) * effectiveLimit o

/-- JavaScript `Math.ceil(total / limit)` for integers and a non-zero limit. -/
def ceilDiv (total limit : Int) : Int := -(Int.fdiv (-total) limit)

/-- The search step: `{ ...query }` with `$or` set to one regex alternative per
search field when a non-empty search term and search fields are given. -/
def searchQuery (re : RegExpI) (query : Query) (o : Options) : Except String Query :=
  match o.search with
  | none => Except.ok query
  | some term =>
    if term ≠ "" ∧ o.searchFields ≠ [] then
      match re term with
      | none => Except.error "Invalid regular expression"
      | some test => Except.ok { query with or := some (o.searchFields.map (fun f => (f, Cond.regex test))) }
    else Except.ok query

/-- The function `paginateResults(model, query, options)`; an `error` is an
exception it throws. -/
def paginateResults {α : Type} [Doc α] (re : RegExpI) (model : List α) (query : Query)
    (o : Options) : Except String (Envelope α) :=
  let page := effectivePage o
  let limit := effectiveLimit o
  let skip := skipOf o
  match searchQuery re query o with
  | Except.error e => Except.error e
  | Except.ok sq =>
    let total := countDocuments model sq
    match findPage model sq o.sort skip limit with
    | Except.error e => Except.error e
    | Except.ok data =>
      Except.ok { data := data, page := page, limit := limit,
                  totalPages := ceilDiv total limit, total := total }

/-! ## Models (src/models) -/

/-- The `role` enum of the User schema. -/
inductive Role where
  | super_admin | admin | manager | sales | support | user
  deriving DecidableEq, Repr

/-- User schema; `company_id` may be unset. -/
structure User where
  _id : Nat
  company_id : Option Nat
  name : String
  email : String
  password : String := ""
  role : Role
  created_at : Nat := 0
  updatedAt : Nat := 0
  deriving DecidableEq, Repr

/-- The string of a role in the `role` enum. -/
def Role.toString : Role → String
  | Role.super_admin => "super_admin"
  | Role.admin => "admin"
  | Role.manager => "manager"
  | Role.sales => "sales"
  | Role.support => "support"
  | Role.user => "user"

/-- Company schema.  Numbers are integers here. -/
structure Company where
  _id : Nat
  name : String
  SIREN : Option String := none
  SIRET : Option String := none
  code_postal : Option String := none
  code_NAF : Option String := none
  chiffre_d_affaires : Option Int := none
  EBIT : Option Int := none
  latitude : Option Int := none
  longitude : Option Int := none
  pdm : Option Int := none
  created_at : Nat := 0
  deriving DecidableEq, Repr

/-- Client schema; `company_id` is required.  Numbers are integers here. -/
structure Client where
  _id : Nat
  company_id : Nat
  name : String
  description : Option String := none
  marketSegment : Option String := none
  SIREN : Option String := none
  SIRET : Option String := none
  code_postal : Option String := none
  code_NAF : Option String := none
  chiffre_d_affaires : Option Int := none
  EBIT : Option Int := none
  latitude : Option Int := none
  longitude : Option Int := none
  pdm : Option Int := none
  created_at : Nat := 0
  createdAt : Nat := 0
  updatedAt : Nat := 0
  deriving DecidableEq, Repr

/-- Contact schema. -/
structure Contact where
  _id : Nat
  client_id : Nat
  name : String
  prenom : String
  email : String
  telephone : Option String := none
  fonction : Option String := none
  created_at : Nat := 0
  updatedAt : Nat := 0
  deriving DecidableEq, Repr

/-- Lead schema.  It has no `company_id` path. -/
structure Lead where
  _id : Nat
  user_id : Nat
  client_id : Nat
  name : String
  description : Option String := none
  source : String := "website"
  statut : String := "Start-to-Call"
  valeur_estimee : Int := 0
  created_at : Nat := 0
  updatedAt : Nat := 0
  deriving DecidableEq, Repr

/-- LeadStatusLog document, as the lead controller writes it. -/
structure LeadStatusLog where
  _id : Nat
  lead_id : Nat
  previous_status : Option String
  new_status : String
  changed_by : Nat
  changed_at : Nat
  duration : Int
  deriving DecidableEq, Repr

/-- Interaction schema. -/
structure Interaction where
  _id : Nat
  lead_id : Nat
  date_interaction : Nat := 0
  type_interaction : String := "call"
  description : Option String := none
  created_at : Nat := 0
  updatedAt : Nat := 0
  deriving DecidableEq, Repr

/-- InteractionContact schema. -/
structure InteractionContact where
  _id : Nat
  interaction_id : Nat
  contact_id : Nat
  deriving DecidableEq, Repr

/-- Note schema. -/
structure Note where
  _id : Nat
  client_id : Nat
  contenu : String
  created_at : Nat := 0
  updatedAt : Nat := 0
  deriving DecidableEq, Repr

/-- Task schema. -/
structure Task where
  _id : Nat
  interaction_id : Nat
  titre : String
  description : Option String := none
  statut : String := "pending"
  due_date : Nat
  assigned_to : Nat
  created_at : Nat := 0
  updatedAt : Nat := 0
  deriving DecidableEq, Repr

/-- Tag schema; `company_id` is required. -/
structure Tag where
  _id : Nat
  company_id : Nat
  name : String
  slug : String
  description : Option String := none
  count : Int := 0
  created_at : Nat := 0
  updated_at : Nat := 0
  updatedAt : Nat := 0
  deriving DecidableEq, Repr

/-- ContentTag schema. -/
structure ContentTag where
  _id : Nat
  content_id : Nat
  tag_id : Nat
  deriving DecidableEq, Repr

/-- Content schema; `company_id` is required. -/
structure Content where
  _id : Nat
  company_id : Nat
  title : String
  slug : String
  content : String
  excerpt : Option String := none
  author_id : Nat
  category_id : Nat
  template_id : Nat
  featured_image : Option Nat := none
  status : String := "draft"
  visibility : String := "public"
  password : Option String := none
  publish_date : Option Nat := none
  meta_title : Option String := none
  meta_description : Option String := none
  created_at : Nat := 0
  updated_at : Nat := 0
  updatedAt : Nat := 0
  deriving DecidableEq, Repr

/-- An optional string field as a stored value. -/
def optStr : Option String → Val
  | some s => Val.str s
  | none => Val.null

/-- An optional reference as a stored or filter value; unset is `null`. -/
def optOid : Option Nat → Val
  | some n => Val.oid n
  | none => Val.null

/-- An optional number field as a stored value. -/
def optNum : Option Int → Val
  | some n => Val.num n
  | none => Val.null

/-- An optional date field as a stored value. -/
def optDate : Option Nat → Val
  | some t => Val.date t
  | none => Val.null

instance : Doc User where
  id u := u._id
  field u key :=
    if key = "company_id" then optOid u.company_id
    else if key = "name" then Val.str u.name
    else if key = "email" then Val.str u.email
    else if key = "password" then Val.str u.password
    else if key = "role" then Val.str u.role.toString
    else if key = "created_at" then Val.date u.created_at
    else if key = "updatedAt" then Val.date u.updatedAt
    else Val.null

instance : Doc Company where
  id c := c._id
  field c key :=
    if key = "name" then Val.str c.name
    else if key = "SIREN" then optStr c.SIREN
    else if key = "SIRET" then optStr c.SIRET
    else if key = "code_postal" then optStr c.code_postal
    else if key = "code_NAF" then optStr c.code_NAF
    else if key = "chiffre_d_affaires" then optNum c.chiffre_d_affaires
    else if key = "EBIT" then optNum c.EBIT
    else if key = "latitude" then optNum c.latitude
    else if key = "longitude" then optNum c.longitude
    else if key = "pdm" then optNum c.pdm
    else if key = "created_at" then Val.date c.created_at
    else Val.null

instance : Doc Client where
  id c := c._id
  field c key :=
    if key = "company_id" then Val.oid c.company_id
    else if key = "name" then Val.str c.name
    else if key = "description" then optStr c.description
    else if key = "marketSegment" then optStr c.marketSegment
    else if key = "SIREN" then optStr c.SIREN
    else if key = "SIRET" then optStr c.SIRET
    else if key = "code_postal" then optStr c.code_postal
    else if key = "code_NAF" then optStr c.code_NAF
    else if key = "chiffre_d_affaires" then optNum c.chiffre_d_affaires
    else if key = "EBIT" then optNum c.EBIT
    else if key = "latitude" then optNum c.latitude
    else if key = "longitude" then optNum c.longitude
    else if key = "pdm" then optNum c.pdm
    else if key = "created_at" then Val.date c.created_at
    else if key = "createdAt" then Val.date c.createdAt
    else if key = "updatedAt" then Val.date c.updatedAt
    else Val.null

instance : Doc Contact where
  id c := c._id
  field c key :=
    if key = "client_id" then Val.oid c.client_id
    else if key = "name" then Val.str c.name
    else if key = "prenom" then Val.str c.prenom
    else if key = "email" then Val.str c.email
    else if key = "telephone" then optStr c.telephone
    else if key = "fonction" then optStr c.fonction
    else if key = "created_at" then Val.date c.created_at
    else if key = "updatedAt" then Val.date c.updatedAt
    else Val.null

instance : Doc Lead where
  id l := l._id
  field l key :=
    if key = "user_id" then Val.oid l.user_id
    else if key = "client_id" then Val.oid l.client_id
    else if key = "name" then Val.str l.name
    else if key = "description" then optStr l.description
    else if key = "source" then Val.str l.source
    else if key = "statut" then Val.str l.statut
    else if key = "valeur_estimee" then Val.num l.valeur_estimee
    else if key = "created_at" then Val.date l.created_at
    else if key = "updatedAt" then Val.date l.updatedAt
    else Val.null

instance : Doc LeadStatusLog where
  id l := l._id
  field l key :=
    if key = "lead_id" then Val.oid l.lead_id
    else if key = "previous_status" then optStr l.previous_status
    else if key = "new_status" then Val.str l.new_status
    else if key = "changed_by" then Val.oid l.changed_by
    else if key = "changed_at" then Val.date l.changed_at
    else if key = "duration" then Val.num l.duration
    else Val.null

instance : Doc Interaction where
  id i := i._id
  field i key :=
    if key = "lead_id" then Val.oid i.lead_id
    else if key = "date_interaction" then Val.date i.date_interaction
    else if key = "type_interaction" then Val.str i.type_interaction
    else if key = "description" then optStr i.description
    else if key = "created_at" then Val.date i.created_at
    else if key = "updatedAt" then Val.date i.updatedAt
    else Val.null

instance : Doc InteractionContact where
  id i := i._id
  field i key :=
    if key = "interaction_id" then Val.oid i.interaction_id
    else if key = "contact_id" then Val.oid i.contact_id
    else Val.null

instance : Doc Note where
  id n := n._id
  field n key :=
    if key = "client_id" then Val.oid n.client_id
    else if key = "contenu" then Val.str n.contenu
    else if key = "created_at" then Val.date n.created_at
    else if key = "updatedAt" then Val.date n.updatedAt
    else Val.null

instance : Doc Task where
  id t := t._id
  field t key :=
    if key = "interaction_id" then Val.oid t.interaction_id
    else if key = "titre" then Val.str t.titre
    else if key = "description" then optStr t.description
    else if key = "statut" then Val.str t.statut
    else if key = "due_date" then Val.date t.due_date
    else if key = "assigned_to" then Val.oid t.assigned_to
    else if key = "created_at" then Val.date t.created_at
    else if key = "updatedAt" then Val.date t.updatedAt
    else Val.null

instance : Doc Tag where
  id t := t._id
  field t key :=
    if key = "company_id" then Val.oid t.company_id
    else if key = "name" then Val.str t.name
    else if key = "slug" then Val.str t.slug
    else if key = "description" then optStr t.description
    else if key = "count" then Val.num t.count
    else if key = "created_at" then Val.date t.created_at
    else if key = "updated_at" then Val.date t.updated_at
    else if key = "updatedAt" then Val.date t.updatedAt
    else Val.null

instance : Doc ContentTag where
  id c := c._id
  field c key :=
    if key = "content_id" then Val.oid c.content_id
    else if key = "tag_id" then Val.oid c.tag_id
    else Val.null

instance : Doc Content where
  id c := c._id
  field c key :=
    if key = "company_id" then Val.oid c.company_id
    else if key = "title" then Val.str c.title
    else if key = "slug" then Val.str c.slug
    else if key = "content" then Val.str c.content
    else if key = "excerpt" then optStr c.excerpt
    else if key = "author_id" then Val.oid c.author_id
    else if key = "category_id" then Val.oid c.category_id
    else if key = "template_id" then Val.oid c.template_id
    else if key = "featured_image" then optOid c.featured_image
    else if key = "status" then Val.str c.status
    else if key = "visibility" then Val.str c.visibility
    else if key = "password" then optStr c.password
    else if key = "publish_date" then optDate c.publish_date
    else if key = "meta_title" then optStr c.meta_title
    else if key = "meta_description" then optStr c.meta_description
    else if key = "created_at" then Val.date c.created_at
    else if key = "updated_at" then Val.date c.updated_at
    else if key = "updatedAt" then Val.date c.updatedAt
    else Val.null

/-- The document store: one collection per model. -/
structure Store where
  companies : List Company := []
  users : List User := []
  clients : List Client := []
  contacts : List Contact := []
  leads : List Lead := []
  leadStatusLogs : List LeadStatusLog := []
  interactions : List Interaction := []
  interactionContacts : List InteractionContact := []
  notes : List Note := []
  tasks : List Task := []
  tags : List Tag := []
  contentTags : List ContentTag := []
  contents : List Content := []
  deriving DecidableEq, Repr

/-- The store operation `Model.findById(id)`. -/
def findById {α : Type} [Doc α] (coll : List α) (id : Nat) : Option α :=
  coll.find? (fun d => Doc.id d == id)

/-- The store operation `Model.find(filter)`. -/
def find {α : Type} [Doc α] (coll : List α) (q : Query) : List α :=
  coll.filter q.matches

/-- The store operation `Model.findOne(filter)`. -/
def findOne {α : Type} [Doc α] (coll : List α) (q : Query) : Option α :=
  coll.find? q.matches

/-- The store operation `doc.deleteOne()`: removes the document with the id of
`doc`. -/
def deleteOne {α : Type} [Doc α] (coll : List α) (doc : α) : List α :=
  coll.filter (fun d => Doc.id d != Doc.id doc)

/-- The store operation `Model.deleteMany(filter)`. -/
def deleteMany {α : Type} [Doc α] (coll : List α) (q : Query) : List α :=
  coll.filter (fun d => !q.matches d)

/-- Replace the first document that satisfies `p` by its image under `f`. -/
def updateFirst {α : Type} (p : α → Bool) (f : α → α) : List α → List α
  | [] => []
  | d :: l => if p d then f d :: l else d :: updateFirst p f l

/-- The write of `Model.findByIdAndUpdate(id, body)`. -/
def updateById {α : Type} [Doc α] (coll : List α) (id : Nat) (f : α → α) : List α :=
  updateFirst (fun d => Doc.id d == id) f coll

/-! ## Responses (express-async-handler, src/middleware/errorHandler.js) -/

/-- The error object `new ApiError(message, statusCode)` of the CMS
controllers, as its two constructor arguments. -/
structure ApiError where
  message : String
  statusCode : Nat
  deriving DecidableEq, Repr

/-- How a handler ends: `res.status(status).json(body)`; an exception thrown
while `res.statusCode` is `status` (200 when the handler did not set it); or
`next(err)` with an `ApiError`. -/
inductive Outcome (β : Type) where
  | json (status : Nat) (body : β)
  | thrown (status : Nat) (message : String)
  | next (err : ApiError)
  deriving DecidableEq, Repr

/-- The status `errorHandler` answers with:
`res.statusCode === 200 ? 500 : res.statusCode`. -/
def errorHandler (resStatusCode : Nat) : Nat :=
  if resStatusCode = 200 then 500 else resStatusCode

/-- The status of the response that reaches the caller. -/
def Outcome.status {β : Type} : Outcome β → Nat
  | Outcome.json status _ => status
  | Outcome.thrown status _ => errorHandler status
  | Outcome.next _ => errorHandler 200

/-- The message of the error a handler ends with, if it ends with one. -/
def Outcome.errorMessage {β : Type} : Outcome β → Option String
  | Outcome.json _ _ => none
  | Outcome.thrown _ message => some message
  | Outcome.next err => some err.message

/-- A `TypeError` raised by reading a property of `undefined` or `null`; the
handler has not set a status. -/
def typeError {β : Type} (property : String) : Outcome β :=
  Outcome.thrown 200 ("Cannot read properties of undefined (reading '" ++ property ++ "')")

/-- A `TypeError` raised by reading a property of `null`, such as a populated
reference whose document is gone; the handler has not set a status. -/
def typeErrorNull {β : Type} (property : String) : Outcome β :=
  Outcome.thrown 200 ("Cannot read properties of null (reading '" ++ property ++ "')")

/-! ## Client controller (src/controllers/clientController.js) -/

/-- The fields a request body may set on a client. -/
structure ClientBody where
  company_id : Option Nat := none
  name : Option String := none
  description : Option String := none
  marketSegment : Option String := none
  SIREN : Option String := none
  SIRET : Option String := none
  code_postal : Option String := none
  code_NAF : Option String := none
  chiffre_d_affaires : Option Int := none
  EBIT : Option Int := none
  latitude : Option Int := none
  longitude : Option Int := none
  pdm : Option Int := none
  deriving DecidableEq, Repr

/-- A field of an update body: a present value replaces the stored one. -/
def setOpt {α : Type} (new : Option α) (old : Option α) : Option α :=
  match new with
  | some v => some v
  | none => old

/-- The document after `findByIdAndUpdate(id, body)` at time `now`. -/
def Client.applyBody (c : Client) (b : ClientBody) (now : Nat) : Client :=
  { c with
    company_id := b.company_id.getD c.company_id
    name := b.name.getD c.name
    description := setOpt b.description c.description
    marketSegment := setOpt b.marketSegment c.marketSegment
    SIREN := setOpt b.SIREN c.SIREN
    SIRET := setOpt b.SIRET c.SIRET
    code_postal := setOpt b.code_postal c.code_postal
    code_NAF := setOpt b.code_NAF c.code_NAF
    chiffre_d_affaires := setOpt b.chiffre_d_affaires c.chiffre_d_affaires
    EBIT := setOpt b.EBIT c.EBIT
    latitude := setOpt b.latitude c.latitude
    longitude := setOpt b.longitude c.longitude
    pdm := setOpt b.pdm c.pdm
    updatedAt := now }

/-- Handler `getClientById`. -/
def getClientById (s : Store) (u : User) (id : Nat) : Outcome Client × Store :=
  match findById s.clients id with
  | none => (Outcome.thrown 404 "Client not found", s)
  | some client =>
    if u.role ≠ Role.super_admin ∧ u.role ≠ Role.admin ∧ u.company_id.isSome then
      if some client.company_id ≠ u.company_id then
        (Outcome.thrown 403 "Not authorized to access this client", s)
      else (Outcome.json 200 client, s)
    else (Outcome.json 200 client, s)

/-- Handler `updateClient`, at time `now`. -/
def updateClient (now : Nat) (s : Store) (u : User) (id : Nat) (body : ClientBody) :
    Outcome Client × Store :=
  match findById s.clients id with
  | none => (Outcome.thrown 404 "Client not found", s)
  | some client =>
    if (u.role ≠ Role.super_admin ∧ u.role ≠ Role.admin ∧ u.company_id.isSome) ∧
        some client.company_id ≠ u.company_id then
      (Outcome.thrown 403 "Not authorized to update this client", s)
    else
      let body := if u.role = Role.admin then { body with company_id := u.company_id } else body
      (Outcome.json 200 (client.applyBody body now),
       { s with clients := updateById s.clients id (fun c => c.applyBody body now) })

/-- Handler `deleteClient`. -/
def deleteClient (s : Store) (u : User) (id : Nat) : Outcome String × Store :=
  match findById s.clients id with
  | none => (Outcome.thrown 404 "Client not found", s)
  | some client =>
    if (u.role ≠ Role.super_admin ∧ u.role ≠ Role.admin ∧ u.company_id.isSome) ∧
        some client.company_id ≠ u.company_id then
      (Outcome.thrown 403 "Not authorized to delete this client", s)
    else
      (Outcome.json 200 "Client removed", { s with clients := deleteOne s.clients client })

/-! ## List handlers: query string and answer -/

/-- The query-string parameters the list handlers read. -/
structure ListParams where
  page : JsVal := JsVal.undefined
  limit : JsVal := JsVal.undefined
  search : Option String := none
  client_id : Option Nat := none
  lead_id : Option Nat := none
  personal : Option String := none
  status : Option String := none

/-- JavaScript truthiness of an optional string: present and not empty. -/
def truthy (x : Option String) : Bool :=
  match x with
  | some v => v != ""
  | none => false

/-- The expression `search ? fields : []`. -/
def searchFieldsOf (search : Option String) (fields : List String) : List String :=
  if truthy search then fields else []

/-- The answer `res.json({ <plural>: data, ...rest })`, or the exception of
`paginateResults` passed on. -/
def respondPage {α : Type} (r : Except String (Envelope α)) : Outcome (Envelope α) :=
  match r with
  | Except.ok env => Outcome.json 200 env
  | Except.error e => Outcome.thrown 200 e

/-- The ids of a list of documents, as filter values. -/
def idsOf {α : Type} [Doc α] (l : List α) : List Val :=
  l.map (fun d => Val.oid (Doc.id d))

/-! ## Lead controller: `getLeads` (src/controllers/leadController.js) -/

/-- The filter `getLeads` builds. -/
def getLeadsQuery (s : Store) (u : User) (p : ListParams) : Query :=
  let query : Query := {}
  let query : Query :=
    if u.role ≠ Role.super_admin then
      let companyClients := find s.clients { fields := [("company_id", Cond.eq (optOid u.company_id))] }
      let clientIds := idsOf companyClients
      { fields := [("client_id", Cond.isIn clientIds)] }
    else query
  let query : Query :=
    if p.personal = some "true" then
      { query with fields := setField query.fields "user_id" (Cond.eq (Val.oid u._id)) }
    else query
  match p.client_id with
  | some client_id => { fields := [("client_id", Cond.eq (Val.oid client_id))] }
  | none => query

/-- Handler `getLeads`.  Each lead of the page is returned with the tasks of
`lead.interactions || []`; the Lead schema has no `interactions` path. -/
def getLeads (re : RegExpI) (s : Store) (u : User) (p : ListParams) :
    Outcome (Envelope (Lead × List Task)) × Store :=
  let searchFields := searchFieldsOf p.search ["name", "source", "statut"]
  let query := getLeadsQuery s u p
  match paginateResults re s.leads query
      { page := p.page, limit := p.limit, search := p.search, searchFields := searchFields,
        sort := some { field := "created_at", dir := -1 } } with
  | Except.error e => (Outcome.thrown 200 e, s)
  | Except.ok results =>
    let leadsWithTasks := results.data.map (fun lead =>
      (lead, find s.tasks { fields := [("interaction_id", Cond.isIn [])] }))
    (Outcome.json 200
      { data := leadsWithTasks, page := results.page, limit := results.limit,
        totalPages := results.totalPages, total := results.total }, s)

/-! ## Task controller: `getTasks` (src/controllers/taskController.js) -/

/-- The filter `getTasks` builds: steps 1 to 4 of the handler, then the
`status` and `personal` filters. -/
def getTasksQuery (s : Store) (u : User) (p : ListParams) : Query :=
  let company_id := u.company_id
  let clients := find s.clients { fields := [("company_id", Cond.eq (optOid company_id))] }
  let clientIds := idsOf clients
  let leads := find s.leads { fields := [("client_id", Cond.isIn clientIds)] }
  let leadIds := idsOf leads
  let interactions := find s.interactions { fields := [("lead_id", Cond.isIn leadIds)] }
  let interactionIds := idsOf interactions
  let query : Query := { fields := [("interaction_id", Cond.isIn interactionIds)] }
  let query : Query :=
    match p.status with
    | some status =>
      if status ≠ "" then
        { query with fields := setField query.fields "statut" (Cond.eq (Val.str status)) }
      else query
    | none => query
  if p.personal = some "true" then
    { query with fields := setField query.fields "assigned_to" (Cond.eq (Val.oid u._id)) }
  else query

/-- Handler `getTasks`. -/
def getTasks (re : RegExpI) (s : Store) (u : User) (p : ListParams) :
    Outcome (Envelope Task) × Store :=
  let searchFields := searchFieldsOf p.search ["titre", "description"]
  (respondPage (paginateResults re s.tasks (getTasksQuery s u p)
    { page := p.page, limit := p.limit, search := p.search, searchFields := searchFields,
      sort := some { field := "updatedAt", dir := -1 } }), s)

/-! ## Contact controller: `getContacts` (src/controllers/contactController.js) -/

/-- The filter `getContacts` builds. -/
def getContactsQuery (s : Store) (u : User) : Query :=
  let company_id := u.company_id
  let clients := find s.clients { fields := [("company_id", Cond.eq (optOid company_id))] }
  let clientIds := idsOf clients
  { fields := [("client_id", Cond.isIn clientIds)] }

/-- Handler `getContacts`. -/
def getContacts (re : RegExpI) (s : Store) (u : User) (p : ListParams) :
    Outcome (Envelope Contact) × Store :=
  let searchFields := searchFieldsOf p.search ["name", "prenom", "email", "telephone", "fonction"]
  (respondPage (paginateResults re s.contacts (getContactsQuery s u)
    { page := p.page, limit := p.limit, search := p.search, searchFields := searchFields,
      sort := some { field := "created_at", dir := -1 } }), s)

/-! ## Note controller: `getNotes` (src/controllers/noteController.js) -/

/-- The filter `getNotes` builds. -/
def getNotesQuery (s : Store) (u : User) : Query :=
  let userCompanyId := u.company_id
  let clients := find s.clients { fields := [("company_id", Cond.eq (optOid userCompanyId))] }
  let clientIds := idsOf clients
  { fields := [("client_id", Cond.isIn clientIds)] }

/-- Handler `getNotes`. -/
def getNotes (re : RegExpI) (s : Store) (u : User) (p : ListParams) :
    Outcome (Envelope Note) × Store :=
  let searchFields := searchFieldsOf p.search ["contenu"]
  (respondPage (paginateResults re s.notes (getNotesQuery s u)
    { page := p.page, limit := p.limit, search := p.search, searchFields := searchFields,
      sort := some { field := "created_at", dir := -1 } }), s)

/-! ## Interaction controller (src/controllers/interactionController.js) -/

/-- The expression `lead.company_id`: the Lead schema declares no such path,
so the expression is `undefined` for every lead. -/
def Lead.company_id (_lead : Lead) : Option Nat := none

/-- The expression `contact.company_id`: the Contact schema declares no such
path, so the expression is `undefined` for every contact. -/
def Contact.company_id (_contact : Contact) : Option Nat := none

/-- The base filter of `getInteractions`, before an explicit `lead_id`. -/
def getInteractionsQuery (s : Store) (u : User) : Query :=
  let company_id := u.company_id
  let clients := find s.clients { fields := [("company_id", Cond.eq (optOid company_id))] }
  let clientIds := idsOf clients
  let leads := find s.leads { fields := [("client_id", Cond.isIn clientIds)] }
  let leadIds := idsOf leads
  { fields := [("lead_id", Cond.isIn leadIds)] }

/-- Handler `getInteractions`. -/
def getInteractions (re : RegExpI) (s : Store) (u : User) (p : ListParams) :
    Outcome (Envelope Interaction) × Store :=
  let searchFields := searchFieldsOf p.search ["type_interaction", "description"]
  let options : Options :=
    { page := p.page, limit := p.limit, search := p.search, searchFields := searchFields,
      sort := some { field := "created_at", dir := -1 } }
  match p.lead_id with
  | none => (respondPage (paginateResults re s.interactions (getInteractionsQuery s u) options), s)
  | some lead_id =>
    match findById s.leads lead_id with
    | none => (Outcome.thrown 404 "Lead not found", s)
    | some lead =>
      let byLead : Query := { fields := [("lead_id", Cond.eq (Val.oid lead_id))] }
      if u.role ≠ Role.super_admin ∧ u.role ≠ Role.admin then
        match findById s.clients lead.client_id with
        | none => (Outcome.thrown 403 "Not authorized to access interactions for this lead", s)
        | some client =>
          match u.company_id with
          | none => (typeError "toString", s)
          | some company_id =>
            if client.company_id ≠ company_id then
              (Outcome.thrown 403 "Not authorized to access interactions for this lead", s)
            else (respondPage (paginateResults re s.interactions byLead options), s)
      else (respondPage (paginateResults re s.interactions byLead options), s)

/-- The fields `updateInteraction` reads from the request body. -/
structure InteractionBody where
  lead_id : Option Nat := none
  date_interaction : Option Nat := none
  type_interaction : Option String := none
  description : Option String := none
  contact_ids : Option (List Nat) := none
  deriving DecidableEq, Repr

/-- JavaScript `x || y` for a string field. -/
def orStr (x : Option String) (y : String) : String :=
  match x with
  | some v => if v = "" then y else v
  | none => y

/-- JavaScript `x || y` for an optional string field. -/
def orOptStr (x : Option String) (y : Option String) : Option String :=
  match x with
  | some v => if v = "" then y else some v
  | none => y

/-- An id no document of the collection has. -/
def freshId {α : Type} [Doc α] (coll : List α) : Nat :=
  (coll.map Doc.id).foldr max 0 + 1

/-- The writes `InteractionContact.create({ interaction_id, contact_id })`, one
per contact id. -/
def createInteractionContacts (interaction_id : Nat) :
    List Nat → List InteractionContact → List InteractionContact
  | [], coll => coll
  | contact_id :: rest, coll =>
    createInteractionContacts interaction_id rest
      (coll ++ [{ _id := freshId coll, interaction_id := interaction_id, contact_id := contact_id }])

/-- The answer of `updateInteraction`: the interaction and the contacts linked
to it (`null` for a link whose contact is gone). -/
structure InteractionWithContacts where
  interaction : Interaction
  contacts : List (Option Contact)
  deriving DecidableEq, Repr

/-- The loop `for (const contact of contacts)` of `updateInteraction`: the
exception it ends with, if any. -/
def checkContacts (u : User) : List Contact → Option (Outcome InteractionWithContacts)
  | [] => none
  | contact :: rest =>
    match Contact.company_id contact with
    | none => some (typeError "toString")
    | some contactCompany =>
      if some contactCompany ≠ u.company_id then
        some (Outcome.thrown 403 "Not authorized to associate contacts from different companies")
      else checkContacts u rest

/-- The second half of `updateInteraction`: the save, the contact links and the
answer. -/
def saveInteraction (now : Nat) (s : Store) (u : User) (interaction : Interaction)
    (body : InteractionBody) : Outcome InteractionWithContacts × Store :=
  let saved : Interaction :=
    { interaction with
      lead_id := body.lead_id.getD interaction.lead_id
      date_interaction := body.date_interaction.getD interaction.date_interaction
      type_interaction := orStr body.type_interaction interaction.type_interaction
      description := orOptStr body.description interaction.description
      updatedAt := now }
  let s₁ : Store :=
    { s with interactions := updateById s.interactions interaction._id (fun _ => saved) }
  let answer (st : Store) : Outcome InteractionWithContacts × Store :=
    let links := find st.interactionContacts
      { fields := [("interaction_id", Cond.eq (Val.oid interaction._id))] }
    (Outcome.json 200
      { interaction := saved, contacts := links.map (fun ic => findById st.contacts ic.contact_id) },
     st)
  let relink (contact_ids : List Nat) : Outcome InteractionWithContacts × Store :=
    let cleared := deleteMany s₁.interactionContacts
      { fields := [("interaction_id", Cond.eq (Val.oid interaction._id))] }
    answer { s₁ with
      interactionContacts := createInteractionContacts interaction._id contact_ids cleared }
  match body.contact_ids with
  | none => answer s₁
  | some contact_ids =>
    if u.role ≠ Role.super_admin ∧ u.role ≠ Role.admin ∧ u.company_id.isSome then
      let contacts := find s₁.contacts { fields := [("_id", Cond.isIn (contact_ids.map Val.oid))] }
      match checkContacts u contacts with
      | some failure => (failure, s₁)
      | none => relink contact_ids
    else relink contact_ids

/-- Handler `updateInteraction`, at time `now`. -/
def updateInteraction (now : Nat) (s : Store) (u : User) (id : Nat) (body : InteractionBody) :
    Outcome InteractionWithContacts × Store :=
  match findById s.interactions id with
  | none => (Outcome.thrown 404 "Interaction not found", s)
  | some interaction =>
    if u.role ≠ Role.super_admin ∧ u.role ≠ Role.admin ∧ u.company_id.isSome then
      match findById s.leads interaction.lead_id with
      | none => (Outcome.thrown 403 "Not authorized to update this interaction", s)
      | some lead =>
        match Lead.company_id lead with
        | none => (typeError "toString", s)
        | some leadCompany =>
          if some leadCompany ≠ u.company_id then
            (Outcome.thrown 403 "Not authorized to update this interaction", s)
          else
            match body.lead_id with
            | none => saveInteraction now s u interaction body
            | some lead_id =>
              if lead_id ≠ interaction.lead_id then
                match findById s.leads lead_id with
                | none => (Outcome.thrown 403 "Not authorized to change to this lead", s)
                | some newLead =>
                  match Lead.company_id newLead with
                  | none => (typeError "toString", s)
                  | some newCompany =>
                    if some newCompany ≠ u.company_id then
                      (Outcome.thrown 403 "Not authorized to change to this lead", s)
                    else saveInteraction now s u interaction body
              else saveInteraction now s u interaction body
    else saveInteraction now s u interaction body

/-- Handler `deleteInteraction`. -/
def deleteInteraction (s : Store) (u : User) (id : Nat) : Outcome String × Store :=
  match findById s.interactions id with
  | none => (Outcome.thrown 404 "Interaction not found", s)
  | some interaction =>
    let remove : Outcome String × Store :=
      (Outcome.json 200 "Interaction removed",
       { s with
         interactionContacts := deleteMany s.interactionContacts
           { fields := [("interaction_id", Cond.eq (Val.oid interaction._id))] }
         interactions := deleteOne s.interactions interaction })
    if u.role ≠ Role.super_admin ∧ u.role ≠ Role.admin ∧ u.company_id.isSome then
      match findById s.leads interaction.lead_id with
      | none => (Outcome.thrown 403 "Not authorized to delete this interaction", s)
      | some lead =>
        match Lead.company_id lead with
        | none => (typeError "toString", s)
        | some leadCompany =>
          if some leadCompany ≠ u.company_id then
            (Outcome.thrown 403 "Not authorized to delete this interaction", s)
          else remove
    else remove

/-! ## Task controller: single-record handlers -/

/-- The expression `interaction.lead_id.client_id` on an interaction with
`lead_id` and its `client_id` populated: an `error` names the property whose
read throws because the lead is `null`; `ok none` is a `null` client. -/
def interactionClient (s : Store) (interaction : Interaction) : Except String (Option Client) :=
  match findById s.leads interaction.lead_id with
  | none => Except.error "client_id"
  | some lead => Except.ok (findById s.clients lead.client_id)

/-- The expression `task.interaction_id.lead_id.client_id` on a task with the
chain populated. -/
def taskClient (s : Store) (task : Task) : Except String (Option Client) :=
  match findById s.interactions task.interaction_id with
  | none => Except.error "lead_id"
  | some interaction => interactionClient s interaction

/-- The company at the end of the chain interaction_id -> lead_id -> client_id
of a task, when every link exists. -/
def taskCompany (s : Store) (task : Task) : Option Nat :=
  match taskClient s task with
  | Except.ok (some client) => some client.company_id
  | _ => none

/-- The permission check shared by `getTaskById`, `updateTask` and
`deleteTask`: the exception it ends with, if any. -/
def checkTask {β : Type} (s : Store) (u : User) (task : Task) (denied : String) :
    Option (Outcome β) :=
  if u.role ≠ Role.super_admin ∧ u.role ≠ Role.admin ∧ u.company_id.isSome then
    match taskClient s task with
    | Except.error property => some (typeErrorNull property)
    | Except.ok none => some (typeErrorNull "company_id")
    | Except.ok (some client) =>
      if some client.company_id ≠ u.company_id then some (Outcome.thrown 403 denied) else none
  else none

/-- Handler `getTaskById`. -/
def getTaskById (s : Store) (u : User) (id : Nat) : Outcome Task × Store :=
  match findById s.tasks id with
  | none => (Outcome.thrown 404 "Task not found", s)
  | some task =>
    match checkTask s u task "Not authorized to access this task" with
    | some failure => (failure, s)
    | none => (Outcome.json 200 task, s)

/-- The fields a request body may set on a task. -/
structure TaskBody where
  interaction_id : Option Nat := none
  titre : Option String := none
  description : Option String := none
  statut : Option String := none
  due_date : Option Nat := none
  assigned_to : Option Nat := none
  deriving DecidableEq, Repr

/-- The document after `findByIdAndUpdate(id, body)` at time `now`. -/
def Task.applyBody (t : Task) (b : TaskBody) (now : Nat) : Task :=
  { t with
    interaction_id := b.interaction_id.getD t.interaction_id
    titre := b.titre.getD t.titre
    description := setOpt b.description t.description
    statut := b.statut.getD t.statut
    due_date := b.due_date.getD t.due_date
    assigned_to := b.assigned_to.getD t.assigned_to
    updatedAt := now }

/-- The check of `updateTask` on a new `interaction_id`: the exception it ends
with, if any. -/
def checkNewInteraction {β : Type} (s : Store) (u : User) (interaction_id : Nat) :
    Option (Outcome β) :=
  match findById s.interactions interaction_id with
  | none => some (Outcome.thrown 404 "Interaction not found")
  | some newInteraction =>
    if u.role ≠ Role.super_admin then
      match interactionClient s newInteraction with
      | Except.error property => some (typeErrorNull property)
      | Except.ok none => some (typeErrorNull "company_id")
      | Except.ok (some client) =>
        match u.company_id with
        | none => some (typeError "toString")
        | some company_id =>
          if client.company_id ≠ company_id then
            some (Outcome.thrown 403
              "Not authorized to assign task to an interaction from another company")
          else none
    else none

/-- Handler `updateTask`, at time `now`. -/
def updateTask (now : Nat) (s : Store) (u : User) (id : Nat) (body : TaskBody) :
    Outcome Task × Store :=
  match findById s.tasks id with
  | none => (Outcome.thrown 404 "Task not found", s)
  | some task =>
    match checkTask s u task "Not authorized to update this task" with
    | some failure => (failure, s)
    | none =>
      match body.interaction_id.bind (checkNewInteraction s u) with
      | some failure => (failure, s)
      | none =>
        (Outcome.json 200 (task.applyBody body now),
         { s with tasks := updateById s.tasks id (fun t => t.applyBody body now) })

/-- Handler `deleteTask`. -/
def deleteTask (s : Store) (u : User) (id : Nat) : Outcome String × Store :=
  match findById s.tasks id with
  | none => (Outcome.thrown 404 "Task not found", s)
  | some task =>
    match checkTask s u task "Not authorized to delete this task" with
    | some failure => (failure, s)
    | none => (Outcome.json 200 "Task deleted", { s with tasks := deleteOne s.tasks task })

/-! ## Contact and note controllers: single-record reads -/

/-- Handler `getContactById`.  `Client.findById(contact.client_id)` is given the
populated client, or `null` when the client is gone, and finds the client or
nothing accordingly. -/
def getContactById (s : Store) (u : User) (id : Nat) : Outcome Contact × Store :=
  match findById s.contacts id with
  | none => (Outcome.thrown 404 "Contact not found", s)
  | some contact =>
    if u.role ≠ Role.super_admin ∧ u.role ≠ Role.admin ∧ u.company_id.isSome then
      match findById s.clients contact.client_id with
      | none => (Outcome.thrown 403 "Not authorized to access this contact", s)
      | some client =>
        if some client.company_id ≠ u.company_id then
          (Outcome.thrown 403 "Not authorized to access this contact", s)
        else (Outcome.json 200 contact, s)
    else (Outcome.json 200 contact, s)

/-- Handler `getNoteById`. -/
def getNoteById (s : Store) (u : User) (id : Nat) : Outcome Note × Store :=
  match findById s.notes id with
  | none => (Outcome.thrown 404 "Note not found", s)
  | some note =>
    if u.role ≠ Role.super_admin ∧ u.role ≠ Role.admin ∧ u.company_id.isSome then
      match findById s.clients note.client_id with
      | none => (Outcome.thrown 403 "Not authorized to access this note", s)
      | some client =>
        if some client.company_id ≠ u.company_id then
          (Outcome.thrown 403 "Not authorized to access this note", s)
        else (Outcome.json 200 note, s)
    else (Outcome.json 200 note, s)

/-! ## Lead controller: `updateLead` and `deleteLead` -/

/-- The fields `updateLead` reads from, or passes on with, the request body. -/
structure LeadBody where
  user_id : Option Nat := none
  client_id : Option Nat := none
  name : Option String := none
  description : Option String := none
  source : Option String := none
  statut : Option String := none
  valeur_estimee : Option Int := none
  assigned_user_id : Option Nat := none
  deriving DecidableEq, Repr

/-- The document after `findByIdAndUpdate(id, body)` at time `now`;
`assigned_user_id` is not a path of the schema. -/
def Lead.applyBody (l : Lead) (b : LeadBody) (now : Nat) : Lead :=
  { l with
    user_id := b.user_id.getD l.user_id
    client_id := b.client_id.getD l.client_id
    name := b.name.getD l.name
    description := setOpt b.description l.description
    source := b.source.getD l.source
    statut := b.statut.getD l.statut
    valeur_estimee := b.valeur_estimee.getD l.valeur_estimee
    updatedAt := now }

/-- The permission check shared by `updateLead` and `deleteLead`: whether the
handler denies. -/
def leadDenied (s : Store) (u : User) (lead : Lead) : Bool :=
  if u.role ≠ Role.super_admin ∧ u.role ≠ Role.admin ∧ u.company_id.isSome then
    match findById s.clients lead.client_id with
    | none => true
    | some client => decide (some client.company_id ≠ u.company_id)
  else false

/-- The step of `updateLead` on a changed `statut`: the status log it writes. -/
def logStatusChange (now : Nat) (s : Store) (u : User) (lead : Lead) (body : LeadBody) : Store :=
  match body.statut with
  | none => s
  | some statut =>
    if statut ≠ "" ∧ statut ≠ lead.statut then
      let lastLog := (applySort (some { field := "changed_at", dir := -1 })
        (find s.leadStatusLogs { fields := [("lead_id", Cond.eq (Val.oid lead._id))] })).head?
      let duration : Int :=
        match lastLog with
        | some log => (now : Int) - (log.changed_at : Int)
        | none => 0
      { s with leadStatusLogs := s.leadStatusLogs ++
          [{ _id := freshId s.leadStatusLogs, lead_id := lead._id,
             previous_status := some lead.statut, new_status := statut,
             changed_by := u._id, changed_at := now, duration := duration }] }
    else s

/-- The reassignment step of `updateLead`: the exception it ends with, or the
request body with `user_id` set and `assigned_user_id` deleted. -/
def reassignLead {β : Type} (s : Store) (u : User) (lead : Lead) (body : LeadBody) :
    Except (Outcome β) LeadBody :=
  match body.assigned_user_id with
  | none => Except.ok body
  | some assigned_user_id =>
    if u.role ≠ Role.super_admin ∧ u.role ≠ Role.admin then
      Except.error (Outcome.thrown 403 "Only admins can reassign leads")
    else
      match findById s.users assigned_user_id with
      | none => Except.error (Outcome.thrown 404 "Assigned user not found")
      | some assignedUser =>
        match assignedUser.company_id, findById s.clients lead.client_id with
        | none, _ => Except.error (typeError "toString")
        | some _, none => Except.error (typeErrorNull "company_id")
        | some userCompany, some client =>
          if userCompany ≠ client.company_id then
            Except.error (Outcome.thrown 403 "Cannot assign lead to user from a different company")
          else Except.ok { body with user_id := some assigned_user_id, assigned_user_id := none }

/-- Handler `updateLead`, at time `now`. -/
def updateLead (now : Nat) (s : Store) (u : User) (id : Nat) (body : LeadBody) :
    Outcome Lead × Store :=
  match findById s.leads id with
  | none => (Outcome.thrown 404 "Lead not found", s)
  | some lead =>
    if leadDenied s u lead then (Outcome.thrown 403 "Not authorized to update this lead", s)
    else
      let newClientFailure : Option (Outcome Lead) :=
        match body.client_id with
        | none => none
        | some client_id =>
          match findById s.clients client_id with
          | none => some (Outcome.thrown 404 "Client not found")
          | some newClient =>
            if (u.role ≠ Role.super_admin ∧ u.role ≠ Role.admin ∧ u.company_id.isSome) ∧
                some newClient.company_id ≠ u.company_id then
              some (Outcome.thrown 403
                "Not authorized to assign lead to a client from another company")
            else none
      match newClientFailure with
      | some failure => (failure, s)
      | none =>
        let s₁ := logStatusChange now s u lead body
        match reassignLead s₁ u lead body with
        | Except.error failure => (failure, s₁)
        | Except.ok body =>
          (Outcome.json 200 (lead.applyBody body now),
           { s₁ with leads := updateById s₁.leads id (fun l => l.applyBody body now) })

/-- Handler `deleteLead`. -/
def deleteLead (s : Store) (u : User) (id : Nat) : Outcome String × Store :=
  match findById s.leads id with
  | none => (Outcome.thrown 404 "Lead not found", s)
  | some lead =>
    if leadDenied s u lead then (Outcome.thrown 403 "Not authorized to delete this lead", s)
    else (Outcome.json 200 "Lead removed", { s with leads := deleteOne s.leads lead })

/-! ## CMS tag controller (src/controllers/cms/tag.controller.js) -/

/-- The filter `{ _id: req.params.id, company_id: req.user.company_id }`. -/
def ownedById (u : User) (id : Nat) : Query :=
  { fields := [("_id", Cond.eq (Val.oid id)), ("company_id", Cond.eq (optOid u.company_id))] }

/-- The fields a request body may set on a tag. -/
structure TagBody where
  company_id : Option Nat := none
  name : Option String := none
  slug : Option String := none
  description : Option String := none
  count : Option Int := none
  deriving DecidableEq, Repr

/-- The document after `findOneAndUpdate(filter, body)` at time `now`. -/
def Tag.applyBody (t : Tag) (b : TagBody) (now : Nat) : Tag :=
  { t with
    company_id := b.company_id.getD t.company_id
    name := b.name.getD t.name
    slug := b.slug.getD t.slug
    description := setOpt b.description t.description
    count := b.count.getD t.count
    updatedAt := now }

/-- Handler `getTagById`. -/
def getTagById (s : Store) (u : User) (id : Nat) : Outcome Tag × Store :=
  match findOne s.tags (ownedById u id) with
  | none => (Outcome.next { message := "Tag not found", statusCode := 404 }, s)
  | some tag => (Outcome.json 200 tag, s)

/-- Handler `updateTag`, at time `now`. -/
def updateTag (now : Nat) (s : Store) (u : User) (id : Nat) (body : TagBody) :
    Outcome Tag × Store :=
  match findOne s.tags (ownedById u id) with
  | none => (Outcome.next { message := "Tag not found", statusCode := 404 }, s)
  | some tag =>
    (Outcome.json 200 (tag.applyBody body now),
     { s with tags := updateFirst (ownedById u id).matches (fun t => t.applyBody body now) s.tags })

/-- Handler `deleteTag`. -/
def deleteTag (s : Store) (u : User) (id : Nat) : Outcome Unit × Store :=
  match findOne s.tags (ownedById u id) with
  | none => (Outcome.next { message := "Tag not found", statusCode := 404 }, s)
  | some _ =>
    (Outcome.json 204 (),
     { s with
       tags := s.tags.eraseP (ownedById u id).matches
       contentTags := deleteMany s.contentTags { fields := [("tag_id", Cond.eq (Val.oid id))] } })

/-! ## CMS content controller (src/controllers/cms/content.controller.js) -/

/-- The fields a request body may set on a content document. -/
structure ContentBody where
  company_id : Option Nat := none
  title : Option String := none
  slug : Option String := none
  content : Option String := none
  excerpt : Option String := none
  author_id : Option Nat := none
  category_id : Option Nat := none
  template_id : Option Nat := none
  featured_image : Option Nat := none
  status : Option String := none
  visibility : Option String := none
  password : Option String := none
  publish_date : Option Nat := none
  meta_title : Option String := none
  meta_description : Option String := none
  deriving DecidableEq, Repr

/-- The document after `findOneAndUpdate(filter, body)` at time `now`. -/
def Content.applyBody (c : Content) (b : ContentBody) (now : Nat) : Content :=
  { c with
    company_id := b.company_id.getD c.company_id
    title := b.title.getD c.title
    slug := b.slug.getD c.slug
    content := b.content.getD c.content
    excerpt := setOpt b.excerpt c.excerpt
    author_id := b.author_id.getD c.author_id
    category_id := b.category_id.getD c.category_id
    template_id := b.template_id.getD c.template_id
    featured_image := setOpt b.featured_image c.featured_image
    status := b.status.getD c.status
    visibility := b.visibility.getD c.visibility
    password := setOpt b.password c.password
    publish_date := setOpt b.publish_date c.publish_date
    meta_title := setOpt b.meta_title c.meta_title
    meta_description := setOpt b.meta_description c.meta_description
    updatedAt := now }

/-- Handler `getContentById`; the populated references of the answer are left
as ids. -/
def getContentById (s : Store) (u : User) (id : Nat) : Outcome Content × Store :=
  match findOne s.contents (ownedById u id) with
  | none => (Outcome.next { message := "Content not found", statusCode := 404 }, s)
  | some content => (Outcome.json 200 content, s)

/-- Handler `updateContent`, at time `now`. -/
def updateContent (now : Nat) (s : Store) (u : User) (id : Nat) (body : ContentBody) :
    Outcome Content × Store :=
  match findOne s.contents (ownedById u id) with
  | none => (Outcome.next { message := "Content not found", statusCode := 404 }, s)
  | some content =>
    (Outcome.json 200 (content.applyBody body now),
     { s with
       contents := updateFirst (ownedById u id).matches (fun c => c.applyBody body now) s.contents })

/-- Handler `deleteContent`. -/
def deleteContent (s : Store) (u : User) (id : Nat) : Outcome Unit × Store :=
  match findOne s.contents (ownedById u id) with
  | none => (Outcome.next { message := "Content not found", statusCode := 404 }, s)
  | some _ =>
    (Outcome.json 204 (), { s with contents := s.contents.eraseP (ownedById u id).matches })

/-! ## CMS blog controller: `getAllBlogs` (src/controllers/cms/blog.controller.js) -/

/-- Blog schema: the paths `getAllBlogs` filters and searches when no category
is asked for. -/
structure Blog where
  _id : Nat
  company_id : Nat
  title : String
  excerpt : String
  author : String
  audience : String := "all"
  created_at : Nat := 0
  deriving DecidableEq, Repr

instance : Doc Blog where
  id b := b._id
  field b key :=
    if key = "company_id" then Val.oid b.company_id
    else if key = "title" then Val.str b.title
    else if key = "excerpt" then Val.str b.excerpt
    else if key = "author" then Val.str b.author
    else if key = "audience" then Val.str b.audience
    else if key = "created_at" then Val.date b.created_at
    else Val.null

/-- The query-string parameters of `getAllBlogs` other than `category`. -/
structure BlogParams where
  page : JsVal := JsVal.undefined
  limit : JsVal := JsVal.undefined
  search : Option String := none
  audience : Option String := none

/-- The filter of `getAllBlogs` for a request without `category`. -/
def getAllBlogsFilter (u : User) (p : BlogParams) : Query :=
  let filter : Query := { fields := [("company_id", Cond.eq (optOid u.company_id))] }
  match p.audience with
  | some audience =>
    if audience ≠ "" ∧ ["english", "french", "all"].contains audience then
      { filter with or := some [("audience", Cond.eq (Val.str audience)),
                                 ("audience", Cond.eq (Val.str "all"))] }
    else filter
  | none => filter

/-- The options of `getAllBlogs`. -/
def getAllBlogsOptions (p : BlogParams) : Options :=
  let options : Options :=
    { page := JsVal.num (orDefault (parseInt p.page) 1)
      limit := JsVal.num (orDefault (parseInt p.limit) 10)
      sort := some { field := "created_at", dir := -1 } }
  if truthy p.search then
    { options with
      search := p.search
      searchFields := ["title", "excerpt", "author", "content.heading", "content.paragraphs"] }
  else options

/-- Handler `getAllBlogs` for a request without `category`; an exception goes
to `catchAsync`. -/
def getAllBlogs (re : RegExpI) (blogs : List Blog) (u : User) (p : BlogParams) :
    Outcome (Envelope Blog) :=
  match paginateResults re blogs (getAllBlogsFilter u p) (getAllBlogsOptions p) with
  | Except.ok results => Outcome.json 200 results
  | Except.error e => Outcome.thrown 200 e

/-! ## A regular-expression constructor for search terms without metacharacters -/

/-- Whether `pattern` is a prefix of `value`, ASCII letters compared without
case. -/
def startsWithCI : List Char → List Char → Bool
  | [], _ => true
  | _ :: _, [] => false
  | a :: pattern, b :: value => a.toLower == b.toLower && startsWithCI pattern value

/-- Whether `pattern` occurs in `value`, ASCII letters compared without case. -/
def containsCI (pattern : List Char) : List Char → Bool
  | [] => startsWithCI pattern []
  | c :: value => startsWithCI pattern (c :: value) || containsCI pattern value

/-- What `new RegExp(term, 'i')` does for a term made of ASCII letters, digits
and spaces only: it is a regular expression and tests for the term as a
substring, letters compared without case.  Used for such terms only. -/
def plainTermRegExp : RegExpI := fun term => some (fun value => containsCI term.data value.data)

/-! ## User controller (src/controllers/userController.js) -/

/-- A value of a response object: a plain value or a populated document. -/
inductive JVal where
  | val (v : Val)
  | doc (fields : List (String × Val))
  deriving DecidableEq, Repr

/-- A response object: its keys and values. -/
abbrev JObject := List (String × JVal)

/-- The value under a key of a response object, if the key is there. -/
def lookupKey (obj : JObject) (key : String) : Option JVal :=
  (obj.find? (fun p => p.1 == key)).map (fun p => p.2)

/-- JavaScript `delete obj[key]`. -/
def deleteKey (obj : JObject) (key : String) : JObject :=
  obj.filter (fun p => p.1 != key)

/-- The call `user.toObject()`, with `company` the value under `company_id`
(absent when the path is unset). -/
def User.toObject (u : User) (company : Option JVal) : JObject :=
  [("_id", JVal.val (Val.oid u._id))] ++
  (match company with
   | some c => [("company_id", c)]
   | none => []) ++
  [("name", JVal.val (Val.str u.name)),
   ("email", JVal.val (Val.str u.email)),
   ("password", JVal.val (Val.str u.password)),
   ("role", JVal.val (Val.str u.role.toString)),
   ("created_at", JVal.val (Val.date u.created_at)),
   ("updatedAt", JVal.val (Val.date u.updatedAt))]

/-- The stored user as an object, `company_id` being the reference. -/
def User.stored (u : User) : JObject :=
  u.toObject (u.company_id.map (fun c => JVal.val (Val.oid c)))

/-- All paths of a company document. -/
def Company.fields (c : Company) : List (String × Val) :=
  [("_id", Val.oid c._id), ("name", Val.str c.name), ("SIREN", optStr c.SIREN),
   ("SIRET", optStr c.SIRET), ("code_postal", optStr c.code_postal),
   ("code_NAF", optStr c.code_NAF), ("chiffre_d_affaires", optNum c.chiffre_d_affaires),
   ("EBIT", optNum c.EBIT), ("latitude", optNum c.latitude), ("longitude", optNum c.longitude),
   ("pdm", optNum c.pdm), ("created_at", Val.date c.created_at)]

/-- The value `populate('company_id', select)` puts under `company_id`: the
company document (its `_id` and the selected paths, all paths without a
selection), or `null` when no company has the id. -/
def populateCompany (s : Store) (select : Option (List String)) (company_id : Option Nat) :
    Option JVal :=
  company_id.map (fun c =>
    match findById s.companies c with
    | none => JVal.val Val.null
    | some company =>
      match select with
      | none => JVal.doc company.fields
      | some paths => JVal.doc (company.fields.filter (fun p => p.1 == "_id" || paths.contains p.1)))

/-- The query-string parameters of `getUsers`. -/
structure UserListParams where
  page : JsVal := JsVal.undefined
  limit : JsVal := JsVal.undefined
  search : Option String := none
  role : Option String := none

namespace UserController

/-- Handler `getUsers`. -/
def getUsers (re : RegExpI) (s : Store) (u : User) (p : UserListParams) :
    Outcome (Envelope JObject) × Store :=
  let searchFields := searchFieldsOf p.search ["name", "email"]
  let query : Query := { fields := [("company_id", Cond.eq (optOid u.company_id))] }
  let query : Query :=
    if truthy p.role then
      { query with fields := setField query.fields "role" (Cond.eq (optStr p.role)) }
    else query
  match paginateResults re s.users query
      { page := p.page, limit := p.limit, search := p.search, searchFields := searchFields,
        sort := some { field := "name", dir := 1 } } with
  | Except.error e => (Outcome.thrown 200 e, s)
  | Except.ok results =>
    let sanitizedUsers := results.data.map (fun user =>
      deleteKey (user.toObject (populateCompany s none user.company_id)) "password")
    (Outcome.json 200
      { data := sanitizedUsers, page := results.page, limit := results.limit,
        totalPages := results.totalPages, total := results.total }, s)

/-- Handler `getUserById`. -/
def getUserById (s : Store) (_u : User) (id : Nat) : Outcome JObject × Store :=
  match findById s.users id with
  | none => (Outcome.thrown 404 "User not found", s)
  | some user =>
    (Outcome.json 200
      (deleteKey (user.toObject (populateCompany s (some ["name"]) user.company_id)) "password"),
     s)

/-- The fields `createUser` and `updateUser` read from the request body. -/
structure UserBody where
  name : Option String := none
  email : Option String := none
  password : Option String := none
  role : Option Role := none
  deriving DecidableEq, Repr

/-- Handler `createUser`, at time `now`; `hash` is the password hashing of the
pre-save hook. -/
def createUser (hash : String → String) (now : Nat) (s : Store) (u : User) (body : UserBody) :
    Outcome JObject × Store :=
  match findOne s.users { fields := [("email", Cond.eq (optStr body.email))] } with
  | some _ => (Outcome.thrown 400 "User already exists", s)
  | none =>
    if u.role ≠ Role.super_admin ∧ u.role ≠ Role.admin ∧ u.company_id.isSome ∧
        (body.role = some Role.super_admin ∨ body.role = some Role.admin) then
      (Outcome.thrown 403 "Not authorized to create users with this role", s)
    else
      let company_id := u.company_id
      let user : User :=
        { _id := freshId s.users, company_id := company_id, name := body.name.getD "",
          email := body.email.getD "", password := hash (body.password.getD ""),
          role := body.role.getD Role.user, created_at := now, updatedAt := now }
      (Outcome.json 201 (deleteKey user.stored "password"), { s with users := s.users ++ [user] })

/-- The check "users from their company" of `updateUser` and `deleteUser`: the
exception it ends with, if any. -/
def crossCompanyCheck {β : Type} (u user : User) (denied : String) : Option (Outcome β) :=
  if u.role ≠ Role.super_admin ∧ u.role ≠ Role.admin ∧ u.company_id.isSome then
    match user.company_id with
    | none => some (typeError "toString")
    | some company_id =>
      if some company_id ≠ u.company_id then some (Outcome.thrown 403 denied) else none
  else none

/-- The user document `updateUser` saves. -/
def applyUserBody (hash : String → String) (now : Nat) (user : User) (body : UserBody) : User :=
  { user with
    name := orStr body.name user.name
    email := orStr body.email user.email
    role := body.role.getD user.role
    password := if truthy body.password then hash (body.password.getD "") else user.password
    updatedAt := now }

/-- Handler `updateUser`, at time `now`. -/
def updateUser (hash : String → String) (now : Nat) (s : Store) (u : User) (userId : Nat)
    (body : UserBody) : Outcome JObject × Store :=
  match findById s.users userId with
  | none => (Outcome.thrown 404 "User not found", s)
  | some user =>
    match crossCompanyCheck u user "Not authorized to update this user" with
    | some failure => (failure, s)
    | none =>
      if u.role ≠ Role.super_admin ∧ u.role ≠ Role.admin ∧
          (body.role = some Role.super_admin ∨ body.role = some Role.admin) then
        (Outcome.thrown 403 "Not authorized to assign this role", s)
      else
        (Outcome.json 200 (deleteKey (applyUserBody hash now user body).stored "password"),
         { s with
           users := updateById s.users user._id (fun _ => applyUserBody hash now user body) })

/-- Handler `deleteUser`. -/
def deleteUser (s : Store) (u : User) (id : Nat) : Outcome String × Store :=
  match findById s.users id with
  | none => (Outcome.thrown 404 "User not found", s)
  | some user =>
    match crossCompanyCheck u user "Not authorized to delete this user" with
    | some failure => (failure, s)
    | none =>
      if user._id = u._id then (Outcome.thrown 400 "Cannot delete your own account", s)
      else if u.role ≠ Role.super_admin ∧ u.role ≠ Role.admin ∧ user.role = Role.admin then
        (Outcome.thrown 403 "Not authorized to delete an admin", s)
      else (Outcome.json 200 "User deleted", { s with users := deleteOne s.users user })

end UserController

/-! ## Auth controller (src/controllers/authController.js) -/

namespace AuthController

/-- The fields `registerUser` reads from the request body. -/
structure RegisterBody where
  name : Option String := none
  email : Option String := none
  password : Option String := none
  role : Option Role := none
  company_id : Option Nat := none
  deriving DecidableEq, Repr

/-- The answer of `registerUser`. -/
structure Registered where
  _id : Nat
  name : String
  email : String
  role : Role
  company_id : Option Nat
  token : String
  deriving DecidableEq, Repr

/-- Handler `registerUser`, a public route, at time `now`; `hash` is the
password hashing of the pre-save hook and `sign` the access token of
`generateTokens`. -/
def registerUser (hash : String → String) (sign : Nat → String) (now : Nat) (s : Store)
    (body : RegisterBody) : Outcome Registered × Store :=
  if ¬ truthy body.name ∨ ¬ truthy body.email ∨ ¬ truthy body.password then
    (Outcome.thrown 400 "Please add all required fields", s)
  else
    match findOne s.users { fields := [("email", Cond.eq (optStr body.email))] } with
    | some _ => (Outcome.thrown 400 "User already exists", s)
    | none =>
      let user : User :=
        { _id := freshId s.users, company_id := body.company_id, name := body.name.getD "",
          email := body.email.getD "", password := hash (body.password.getD ""),
          role := body.role.getD Role.user, created_at := now, updatedAt := now }
      (Outcome.json 201
        { _id := user._id, name := user.name, email := user.email, role := user.role,
          company_id := user.company_id, token := sign user._id },
       { s with users := s.users ++ [user] })

/-- Handler `deleteUser` (DELETE /api/auth/users/:id). -/
def deleteUser (s : Store) (u : User) (id : Nat) : Outcome String × Store :=
  match findById s.users id with
  | none => (Outcome.thrown 404 "User not found", s)
  | some user =>
    if (u.role = Role.admin ∧ u.company_id.isSome) ∧
        (user.company_id.isSome ∧ user.company_id ≠ u.company_id) then
      (Outcome.thrown 403 "Not authorized to delete this user", s)
    else (Outcome.json 200 "User removed", { s with users := deleteOne s.users user })

end AuthController

/-! ## Company routes (src/controllers/companyController.js, src/middleware/authMiddleware.js) -/

/-- How a middleware ends: `next()`, or an exception thrown after
`res.status(status)`. -/
inductive Verdict where
  | next
  | thrown (status : Nat) (message : String)
  deriving DecidableEq, Repr

/-- Middleware `isCompanyAdmin`; `user` is `req.user` and `paramsId` is
`req.params.id`, both absent when unset. -/
def isCompanyAdmin (user : Option User) (paramsId : Option Nat) : Verdict :=
  match user with
  | none => Verdict.thrown 403 "Not authorized as an admin"
  | some u =>
    if u.role = Role.admin ∨ u.role = Role.super_admin then
      if u.role = Role.admin ∧ paramsId.isSome then
        if u.company_id.isSome ∧ u.company_id = paramsId then Verdict.next
        else Verdict.thrown 403 "Not authorized to access this company"
      else if u.role = Role.super_admin then Verdict.next
      else Verdict.thrown 403 "Company ID is required"
    else Verdict.thrown 403 "Not authorized as an admin"

/-- Handler `getCompanyById`. -/
def getCompanyById (s : Store) (_u : User) (id : Nat) : Outcome Company × Store :=
  match findById s.companies id with
  | some company => (Outcome.json 200 company, s)
  | none => (Outcome.thrown 404 "Company not found", s)

/-- The route `GET /api/companies/:id`: `protect`, which has set `req.user`,
then `getCompanyById`. -/
def routeGetCompany (s : Store) (u : User) (id : Nat) : Outcome Company × Store :=
  getCompanyById s u id

/-! ## Client controller: `createClient` -/

/-- Handler `createClient`, at time `now`. -/
def createClient (now : Nat) (s : Store) (u : User) (body : ClientBody) :
    Outcome Client × Store :=
  if (u.role ≠ Role.super_admin ∧ u.role ≠ Role.admin ∧ u.company_id.isSome) ∧
      (body.company_id.isNone ∨ body.company_id ≠ u.company_id) then
    (Outcome.thrown 403 "You can only create clients for your own company", s)
  else
    let company_id :=
      if u.role = Role.super_admin ∨ u.role = Role.admin then u.company_id else body.company_id
    match company_id with
    | none => (Outcome.thrown 200 "Client validation failed: company_id: Path `company_id` is required.", s)
    | some company_id =>
      let client : Client :=
        { _id := freshId s.clients, company_id := company_id, name := body.name.getD "",
          description := body.description, marketSegment := body.marketSegment,
          SIREN := body.SIREN, SIRET := body.SIRET, code_postal := body.code_postal,
          code_NAF := body.code_NAF, chiffre_d_affaires := body.chiffre_d_affaires,
          EBIT := body.EBIT, latitude := body.latitude, longitude := body.longitude,
          pdm := body.pdm, created_at := now, createdAt := now, updatedAt := now }
      (Outcome.json 201 client, { s with clients := s.clients ++ [client] })

/-! ## Media controller: object keys (src/controllers/mediaController.js) -/

/-- JavaScript `s.split('/')` on the characters of a string. -/
def splitSlash : List Char → List (List Char)
  | [] => [[]]
  | c :: cs =>
    if c = '/' then [] :: splitSlash cs
    else
      match splitSlash cs with
      | [] => [[c]]
      | part :: parts => (c :: part) :: parts

/-- JavaScript `parts.join('/')` on the characters of strings. -/
def joinSlash : List (List Char) → List Char
  | [] => []
  | [part] => part
  | part :: rest => part ++ '/' :: joinSlash rest

/-- The `file_url` of `uploadMedia`:
`https://${bucket}.s3.${region}.amazonaws.com/${key}`. -/
def fileUrl (bucket region key : String) : String :=
  "https://" ++ bucket ++ ".s3." ++ region ++ ".amazonaws.com/" ++ key

/-- The key of `deleteMedia`: `file_url.split('/').slice(3).join('/')`. -/
def keyOfUrl (file_url : String) : String :=
  String.mk (joinSlash ((splitSlash file_url.data).drop 3))

/-! ## Store invariant -/

/-- The ids of the clients, of the leads and of the interactions are unique
within their collection (the `_id` index of the store). -/
def Store.uniqueIds (s : Store) : Prop :=
  (s.clients.map (fun c => c._id)).Nodup ∧ (s.leads.map (fun l => l._id)).Nodup ∧
  (s.interactions.map (fun i => i._id)).Nodup

instance (s : Store) : Decidable s.uniqueIds := by
  unfold Store.uniqueIds
  exact inferInstance

/-! ## The sets the list claims speak of -/

/-- The tasks whose chain interaction_id -> lead_id -> client_id ends at a
client of company `c`. -/
def tasksOfCompany (s : Store) (c : Nat) : List Task :=
  s.tasks.filter (fun t => taskCompany s t == some c)

/-- The tasks of company `c` in the order `getTasks` sorts them. -/
def tasksOrdered (s : Store) (c : Nat) : List Task :=
  applySort (some { field := "updatedAt", dir := -1 }) (tasksOfCompany s c)

/-- Page number `page` (from 1) of a list cut into pages of `limit` items. -/
def pageWindow {α : Type} (l : List α) (page limit : Nat) : List α :=
  (l.drop ((page - 1) * limit)).take limit

/-- The records matching a filter, in the order of the sort option. -/
def matchingOrdered {α : Type} [Doc α] (model : List α) (sq : Query) (sort : Option SortSpec) :
    List α :=
  applySort sort (model.filter sq.matches)

/-- The number of records that satisfy the filter `q` and match the search in
one of the search fields: the `total` the specification describes. -/
def countFilterAndSearch {α : Type} [Doc α] (model : List α) (q : Query)
    (test : String → Bool) (fields : List String) : Nat :=
  (model.filter (fun d =>
    q.matches d && fields.any (fun f => (Cond.regex test).holds (Doc.get d f)))).length

/-! ## Concrete stores and callers used to evaluate the handlers -/

/-- Company 1 owns client 1, lead 1, interaction 1 and tasks 1 and 2; company 2
owns client 2, lead 2, interaction 2 and task 3.  Each client has one contact
and one note. -/
def storeTwoCompanies : Store :=
  { clients := [{ _id := 1, company_id := 1, name := "Acme" },
                { _id := 2, company_id := 2, name := "Globex" }]
    leads := [{ _id := 1, user_id := 10, client_id := 1, name := "L1" },
              { _id := 2, user_id := 12, client_id := 2, name := "L2" }]
    interactions := [{ _id := 1, lead_id := 1 }, { _id := 2, lead_id := 2 }]
    tasks := [{ _id := 1, interaction_id := 1, titre := "T1", due_date := 7, assigned_to := 10 },
              { _id := 2, interaction_id := 1, titre := "T2", due_date := 8, assigned_to := 10 },
              { _id := 3, interaction_id := 2, titre := "T3", due_date := 9, assigned_to := 12 }]
    contacts := [{ _id := 1, client_id := 1, name := "Roe", prenom := "Jo", email := "jo@acme.io" },
                 { _id := 2, client_id := 2, name := "Doe", prenom := "Al", email := "al@globex.io" }]
    notes := [{ _id := 1, client_id := 1, contenu := "call back" },
              { _id := 2, client_id := 2, contenu := "send offer" }] }

/-- A store with one tag and one content document, both of company 2. -/
def storeCms : Store :=
  { tags := [{ _id := 3, company_id := 2, name := "news", slug := "news" }]
    contents := [{ _id := 4, company_id := 2, title := "Hello", slug := "hello", content := "text",
                   author_id := 20, category_id := 30, template_id := 40 }] }

/-- A store with one client, owned by company 2. -/
def storeOneClient : Store :=
  { clients := [{ _id := 1, company_id := 2, name := "Acme" }] }

/-- An admin of company 1. -/
def adminOfOne : User :=
  { _id := 9, company_id := some 1, name := "Ada", email := "ada@one.io", role := Role.admin }

/-- A sales user of company 1. -/
def salesOfOne : User :=
  { _id := 10, company_id := some 1, name := "Sam", email := "sam@one.io", role := Role.sales }

/-- A sales user with no company assigned. -/
def salesNoCompany : User :=
  { _id := 11, company_id := none, name := "Nil", email := "nil@none.io", role := Role.sales }

/-- A super admin whose user record carries company 1. -/
def superOfOne : User :=
  { _id := 13, company_id := some 1, name := "Sue", email := "sue@one.io",
    role := Role.super_admin }

/-- A store with broken references: contact 1, note 1 and lead 1 name client 99
and task 1 names interaction 99, none of which exists. -/
def storeDangling : Store :=
  { contacts := [{ _id := 1, client_id := 99, name := "Roe", prenom := "Jo", email := "jo@acme.io" }]
    notes := [{ _id := 1, client_id := 99, contenu := "call back" }]
    leads := [{ _id := 1, user_id := 10, client_id := 99, name := "L1" }]
    tasks := [{ _id := 1, interaction_id := 99, titre := "T1", due_date := 7, assigned_to := 10 }] }

/-- The regular-expression constructor used where no search term is given. -/
def noRegExp : RegExpI := fun _ => none

/-- The scenario of the specification: tenant 1 has clients 1 and 2, client 1
has lead 1, lead 1 has interaction 1, interaction 1 has tasks 1 and 2. -/
def storeScenario : Store :=
  { clients := [{ _id := 1, company_id := 1, name := "C1" },
                { _id := 2, company_id := 1, name := "C2" }]
    leads := [{ _id := 1, user_id := 10, client_id := 1, name := "L1" }]
    interactions := [{ _id := 1, lead_id := 1 }]
    tasks := [{ _id := 1, interaction_id := 1, titre := "T1", due_date := 7, assigned_to := 10 },
              { _id := 2, interaction_id := 1, titre := "T2", due_date := 8, assigned_to := 10 }] }

/-- A sales user of company 2. -/
def salesOfTwo : User :=
  { _id := 12, company_id := some 2, name := "Tom", email := "tom@two.io", role := Role.sales }

/-- A collection of 25 notes of client 1. -/
def twentyFiveNotes : List Note :=
  (List.range 25).map (fun i => { _id := i + 1, client_id := 1, contenu := "note" })

/-- Two blogs of company 1: an English one and a French one, both with
"guide" in the title. -/
def blogsOfOne : List Blog :=
  [{ _id := 1, company_id := 1, title := "Sales guide", excerpt := "how to", author := "Ann",
     audience := "english" },
   { _id := 2, company_id := 1, title := "Guide de vente", excerpt := "comment", author := "Luc",
     audience := "french" }]

/-- Client 1 of company 1 with lead 1 owned by user 10 and lead 2 owned by
user 12. -/
def storeLeadOwners : Store :=
  { clients := [{ _id := 1, company_id := 1, name := "Acme" }]
    leads := [{ _id := 1, user_id := 10, client_id := 1, name := "L1" },
              { _id := 2, user_id := 12, client_id := 1, name := "L2" }] }

/-- A platform constructor as far as the failing input of the search needs it:
the pattern "(" is rejected with a `SyntaxError`. -/
def rejectOpenParen : RegExpI := fun term => if term = "(" then none else plainTermRegExp term

/-- Companies 1 and 2; the admin, the sales user and the super admin of
company 1 and the sales user of company 2; client 1 of company 1 with lead 1,
owned by the sales user of company 1. -/
def storeUsers : Store :=
  { companies := [{ _id := 1, name := "One" }, { _id := 2, name := "Two" }]
    users := [adminOfOne, salesOfOne, salesOfTwo, superOfOne]
    clients := [{ _id := 1, company_id := 1, name := "Acme" }]
    leads := [{ _id := 1, user_id := 10, client_id := 1, name := "L1" }] }

/-- A manager with no company assigned. -/
def managerNoCompany : User :=
  { _id := 14, company_id := none, name := "Max", email := "max@none.io", role := Role.manager }

/-- A password hashing used to evaluate the handlers. -/
def hashStub : String → String := fun password => "hash:" ++ password

/-- A token signing used to evaluate the handlers. -/
def signStub : Nat → String := fun _ => "token"

/-! ## Theorems -/

/-! ### Single-client handlers -/

/-- C1, as stated, fails for an admin: an admin of company 1 reads, updates and
deletes a client of company 2. -/
theorem client_handlers_admin_cross_company :
    adminOfOne.role ≠ Role.super_admin ∧
    findById storeOneClient.clients 1 = some { _id := 1, company_id := 2, name := "Acme" } ∧
    some 2 ≠ adminOfOne.company_id ∧
    (getClientById storeOneClient adminOfOne 1).1.status = 200 ∧
    (updateClient 5 storeOneClient adminOfOne 1 { name := some "Mine" }).2.clients =
      [{ _id := 1, company_id := 1, name := "Mine", updatedAt := 5 }] ∧
    (deleteClient storeOneClient adminOfOne 1).2.clients = [] := by
  decide

/-- C1 (amended): for a caller with role manager, sales, support or user and
company `c`, and a stored client of another company, `getClientById`,
`updateClient` and `deleteClient` each end with status 403 and their
'Not authorized ...' message, and leave the store as it was. -/
theorem client_handlers_deny_cross_company (s : Store) (u : User) (c id now : Nat)
    (client : Client) (body : ClientBody)
    (hrole : u.role = Role.manager ∨ u.role = Role.sales ∨ u.role = Role.support ∨
      u.role = Role.user)
    (hc : u.company_id = some c)
    (hfind : findById s.clients id = some client)
    (hother : client.company_id ≠ c) :
    getClientById s u id = (Outcome.thrown 403 "Not authorized to access this client", s) ∧
    updateClient now s u id body =
      (Outcome.thrown 403 "Not authorized to update this client", s) ∧
    deleteClient s u id = (Outcome.thrown 403 "Not authorized to delete this client", s) := by
  have h1 : u.role ≠ Role.super_admin := by rcases hrole with h | h | h | h <;> simp [h]
  have h2 : u.role ≠ Role.admin := by rcases hrole with h | h | h | h <;> simp [h]
  simp [getClientById, updateClient, deleteClient, hfind, hc, h1, h2, hother]

/-- Witness for `client_handlers_deny_cross_company`: a sales user of company 1
and the client of company 2. -/
theorem client_handlers_deny_cross_company_witness :
    getClientById storeOneClient salesOfOne 1 =
      (Outcome.thrown 403 "Not authorized to access this client", storeOneClient) ∧
    updateClient 5 storeOneClient salesOfOne 1 { name := some "Mine" } =
      (Outcome.thrown 403 "Not authorized to update this client", storeOneClient) ∧
    deleteClient storeOneClient salesOfOne 1 =
      (Outcome.thrown 403 "Not authorized to delete this client", storeOneClient) :=
  client_handlers_deny_cross_company storeOneClient salesOfOne 1 1 5
    { _id := 1, company_id := 2, name := "Acme" } { name := some "Mine" }
    (Or.inr (Or.inl rfl)) rfl (by decide) (by decide)

/-- C5, as stated, fails: a sales user with no company reads, updates and
deletes a client of company 2. -/
theorem client_handlers_allow_without_company :
    salesNoCompany.role = Role.sales ∧ salesNoCompany.company_id = none ∧
    getClientById storeOneClient salesNoCompany 1 =
      (Outcome.json 200 { _id := 1, company_id := 2, name := "Acme" }, storeOneClient) ∧
    (updateClient 5 storeOneClient salesNoCompany 1 { name := some "Mine" }).2.clients =
      [{ _id := 1, company_id := 2, name := "Mine", updatedAt := 5 }] ∧
    (deleteClient storeOneClient salesNoCompany 1).2.clients = [] := by
  decide

/-- C5 (amended): for a caller whose `company_id` is unset, whatever the role,
the three handlers make no tenant check: when the id names a stored client they
answer 200, returning, updating or deleting that client. -/
theorem client_handlers_no_company_no_check (s : Store) (u : User) (id now : Nat)
    (client : Client) (body : ClientBody)
    (hc : u.company_id = none)
    (hfind : findById s.clients id = some client) :
    getClientById s u id = (Outcome.json 200 client, s) ∧
    (updateClient now s u id body).1.status = 200 ∧
    (updateClient now s u id body).2.clients =
      updateById s.clients id (fun d => d.applyBody
        (if u.role = Role.admin then { body with company_id := none } else body) now) ∧
    deleteClient s u id =
      (Outcome.json 200 "Client removed", { s with clients := deleteOne s.clients client }) := by
  refine ⟨?_, ?_, ?_, ?_⟩
  · simp [getClientById, hfind, hc]
  · simp [updateClient, hfind, hc, Outcome.status]
  · by_cases hr : u.role = Role.admin <;> simp [updateClient, hfind, hc, hr]
  · simp [deleteClient, hfind, hc]

/-- Witness for `client_handlers_no_company_no_check`. -/
theorem client_handlers_no_company_no_check_witness :
    getClientById storeOneClient salesNoCompany 1 =
      (Outcome.json 200 { _id := 1, company_id := 2, name := "Acme" }, storeOneClient) ∧
    (updateClient 5 storeOneClient salesNoCompany 1 {}).1.status = 200 ∧
    (updateClient 5 storeOneClient salesNoCompany 1 {}).2.clients =
      updateById storeOneClient.clients 1 (fun d => d.applyBody
        (if salesNoCompany.role = Role.admin then { ({} : ClientBody) with company_id := none }
          else {}) 5) ∧
    deleteClient storeOneClient salesNoCompany 1 =
      (Outcome.json 200 "Client removed",
        { storeOneClient with
          clients := deleteOne storeOneClient.clients
            { _id := 1, company_id := 2, name := "Acme" } }) :=
  client_handlers_no_company_no_check storeOneClient salesNoCompany 1 5
    { _id := 1, company_id := 2, name := "Acme" } {} rfl (by decide)

/-- C6, as stated, fails: for a sales user of company 1 the id of a client of
company 2 gives 403 'Not authorized ...' while an id naming no client gives
404 'Client not found'. -/
theorem client_handlers_existence_observable :
    findById storeOneClient.clients 7 = none ∧
    (getClientById storeOneClient salesOfOne 1).1 ≠ (getClientById storeOneClient salesOfOne 7).1 ∧
    (getClientById storeOneClient salesOfOne 1).1.status = 403 ∧
    (getClientById storeOneClient salesOfOne 7).1.status = 404 ∧
    (updateClient 5 storeOneClient salesOfOne 1 {}).1.status = 403 ∧
    (updateClient 5 storeOneClient salesOfOne 7 {}).1.status = 404 ∧
    (deleteClient storeOneClient salesOfOne 1).1.status = 403 ∧
    (deleteClient storeOneClient salesOfOne 7).1.status = 404 := by
  decide

/-- C6 (amended): for a tenant-bound non-admin caller the three handlers end
with status 403 and a 'Not authorized ...' message when the id names a client
of another company, and with status 404 and 'Client not found' when the id
names no client; both are errors and neither changes the store. -/
theorem client_handlers_403_versus_404 (s₁ s₂ : Store) (u : User) (c id now : Nat)
    (client : Client) (body : ClientBody)
    (hsuper : u.role ≠ Role.super_admin) (hadmin : u.role ≠ Role.admin)
    (hc : u.company_id = some c)
    (hfind : findById s₁.clients id = some client)
    (hother : client.company_id ≠ c)
    (hnone : findById s₂.clients id = none) :
    ((getClientById s₁ u id).1.status = 403 ∧
      (getClientById s₁ u id).1.errorMessage = some "Not authorized to access this client" ∧
      (getClientById s₂ u id).1.status = 404 ∧
      (getClientById s₂ u id).1.errorMessage = some "Client not found") ∧
    ((updateClient now s₁ u id body).1.status = 403 ∧
      (updateClient now s₁ u id body).1.errorMessage =
        some "Not authorized to update this client" ∧
      (updateClient now s₂ u id body).1.status = 404 ∧
      (updateClient now s₂ u id body).1.errorMessage = some "Client not found") ∧
    ((deleteClient s₁ u id).1.status = 403 ∧
      (deleteClient s₁ u id).1.errorMessage = some "Not authorized to delete this client" ∧
      (deleteClient s₂ u id).1.status = 404 ∧
      (deleteClient s₂ u id).1.errorMessage = some "Client not found") ∧
    (getClientById s₁ u id).2 = s₁ ∧ (getClientById s₂ u id).2 = s₂ ∧
    (updateClient now s₁ u id body).2 = s₁ ∧ (updateClient now s₂ u id body).2 = s₂ ∧
    (deleteClient s₁ u id).2 = s₁ ∧ (deleteClient s₂ u id).2 = s₂ := by
  simp [getClientById, updateClient, deleteClient, hfind, hnone, hc, hsuper, hadmin, hother,
    Outcome.status, Outcome.errorMessage, errorHandler]

/-- Witness for `client_handlers_403_versus_404`: the same store queried with
the id of the foreign client and with an id that names no client. -/
theorem client_handlers_403_versus_404_witness :
    (getClientById storeOneClient salesOfOne 1).1.status = 403 ∧
    (getClientById storeOneClient salesOfOne 1).1.errorMessage =
      some "Not authorized to access this client" :=
  ((client_handlers_403_versus_404 storeOneClient { clients := [] } salesOfOne 1 1 5
    { _id := 1, company_id := 2, name := "Acme" } {} (by decide) (by decide) rfl
    (by decide) (by decide) (by decide)).1).imp_right And.left

/-! ### Pagination defaults -/

/-- C10 at the failing input `page = "-3"`, `limit = "10"` (and `limit = "-5"`):
a negative number is truthy, so the effective page is -3, the skip is -40, the
effective limit is -5, and `paginateResults` ends with the store's error. -/
theorem paginateResults_negative_page_kept :
    parseInt (JsVal.str "-3") = some (-3) ∧
    effectivePage { page := JsVal.str "-3", limit := JsVal.str "10" } = -3 ∧
    skipOf { page := JsVal.str "-3", limit := JsVal.str "10" } = -40 ∧
    effectiveLimit { limit := JsVal.str "-5" } = -5 ∧
    (paginateResults (fun _ => none) storeOneClient.clients {}
      { page := JsVal.str "-3", limit := JsVal.str "10" }).toOption.isNone = true := by
  decide

/-! ### CMS single-record handlers -/

theorem ownedById_matches_tag (u : User) (id : Nat) (t : Tag) :
    (ownedById u id).matches t = true ↔ t._id = id ∧ some t.company_id = u.company_id := by
  cases h : u.company_id <;>
    simp [ownedById, Query.matches, Cond.holds, Doc.get, Doc.id, Doc.field, optOid, h]

theorem ownedById_matches_content (u : User) (id : Nat) (c : Content) :
    (ownedById u id).matches c = true ↔ c._id = id ∧ some c.company_id = u.company_id := by
  cases h : u.company_id <;>
    simp [ownedById, Query.matches, Cond.holds, Doc.get, Doc.id, Doc.field, optOid, h]

theorem mem_updateFirst_of_false {α : Type} (p : α → Bool) (f : α → α) (a : α) :
    ∀ l : List α, a ∈ l → p a = false → a ∈ updateFirst p f l
  | [], h, _ => by cases h
  | d :: l, h, hp => by
    by_cases hd : p d = true
    · rcases List.mem_cons.1 h with rfl | h'
      · rw [hp] at hd; cases hd
      · simp [updateFirst, hd, h']
    · rcases List.mem_cons.1 h with rfl | h'
      · simp [updateFirst, hd]
      · simp [updateFirst, hd, mem_updateFirst_of_false p f a l h' hp]

/-- Company isolation of the CMS handlers `getTagById`, `updateTag`,
`deleteTag`, `getContentById`, `updateContent` and `deleteContent`: they only
return a record of the caller's company, keep every record of another company
in the store as it is, and, when no record of the caller's company has the id
(the id names a record of another company or no record), all pass the same
`ApiError` '... not found' with status code 404 to `next` and leave the store
unchanged. -/
theorem cms_handlers_company_scoped (s : Store) (u : User) (id now : Nat)
    (tb : TagBody) (cb : ContentBody) :
    (∀ st t, (getTagById s u id).1 = Outcome.json st t → some t.company_id = u.company_id) ∧
    (∀ st c, (getContentById s u id).1 = Outcome.json st c →
      some c.company_id = u.company_id) ∧
    (∀ t ∈ s.tags, some t.company_id ≠ u.company_id →
      t ∈ (updateTag now s u id tb).2.tags ∧ t ∈ (deleteTag s u id).2.tags) ∧
    (∀ c ∈ s.contents, some c.company_id ≠ u.company_id →
      c ∈ (updateContent now s u id cb).2.contents ∧ c ∈ (deleteContent s u id).2.contents) ∧
    ((∀ t ∈ s.tags, t._id = id → some t.company_id ≠ u.company_id) →
      getTagById s u id = (Outcome.next { message := "Tag not found", statusCode := 404 }, s) ∧
      updateTag now s u id tb =
        (Outcome.next { message := "Tag not found", statusCode := 404 }, s) ∧
      deleteTag s u id = (Outcome.next { message := "Tag not found", statusCode := 404 }, s)) ∧
    ((∀ c ∈ s.contents, c._id = id → some c.company_id ≠ u.company_id) →
      getContentById s u id =
        (Outcome.next { message := "Content not found", statusCode := 404 }, s) ∧
      updateContent now s u id cb =
        (Outcome.next { message := "Content not found", statusCode := 404 }, s) ∧
      deleteContent s u id =
        (Outcome.next { message := "Content not found", statusCode := 404 }, s)) := by
  refine ⟨?_, ?_, ?_, ?_, ?_, ?_⟩
  · intro st t h
    unfold getTagById at h
    cases hf : findOne s.tags (ownedById u id) with
    | none => simp [hf] at h
    | some tag =>
      simp [hf] at h
      have hm := List.find?_some hf
      rw [← h.2]
      exact ((ownedById_matches_tag u id tag).1 hm).2
  · intro st c h
    unfold getContentById at h
    cases hf : findOne s.contents (ownedById u id) with
    | none => simp [hf] at h
    | some content =>
      simp [hf] at h
      have hm := List.find?_some hf
      rw [← h.2]
      exact ((ownedById_matches_content u id content).1 hm).2
  · intro t ht hne
    have hfalse : (ownedById u id).matches t = false := by
      cases hm : (ownedById u id).matches t with
      | false => rfl
      | true => exact absurd ((ownedById_matches_tag u id t).1 hm).2 hne
    constructor
    · unfold updateTag
      cases hf : findOne s.tags (ownedById u id) with
      | none => simpa using ht
      | some tag => simpa using mem_updateFirst_of_false _ _ t s.tags ht hfalse
    · unfold deleteTag
      cases hf : findOne s.tags (ownedById u id) with
      | none => simpa using ht
      | some tag =>
        have : t ∈ s.tags.eraseP (ownedById u id).matches :=
          (List.mem_eraseP_of_neg (by simp [hfalse])).2 ht
        simpa using this
  · intro c hc hne
    have hfalse : (ownedById u id).matches c = false := by
      cases hm : (ownedById u id).matches c with
      | false => rfl
      | true => exact absurd ((ownedById_matches_content u id c).1 hm).2 hne
    constructor
    · unfold updateContent
      cases hf : findOne s.contents (ownedById u id) with
      | none => simpa using hc
      | some content => simpa using mem_updateFirst_of_false _ _ c s.contents hc hfalse
    · unfold deleteContent
      cases hf : findOne s.contents (ownedById u id) with
      | none => simpa using hc
      | some content =>
        have : c ∈ s.contents.eraseP (ownedById u id).matches :=
          (List.mem_eraseP_of_neg (by simp [hfalse])).2 hc
        simpa using this
  · intro h
    have hf : findOne s.tags (ownedById u id) = none := by
      unfold findOne
      rw [List.find?_eq_none]
      intro t ht hm
      have := (ownedById_matches_tag u id t).1 hm
      exact h t ht this.1 this.2
    simp [getTagById, updateTag, deleteTag, hf]
  · intro h
    have hf : findOne s.contents (ownedById u id) = none := by
      unfold findOne
      rw [List.find?_eq_none]
      intro c hc hm
      have := (ownedById_matches_content u id c).1 hm
      exact h c hc this.1 this.2
    simp [getContentById, updateContent, deleteContent, hf]

/-- An instance of `cms_handlers_company_scoped`: a sales user of company 1
asks for tag 3 of company 2 and gets the `ApiError` of an unknown id. -/
theorem cms_handlers_company_scoped_witness :
    getTagById storeCms salesOfOne 3 =
      (Outcome.next { message := "Tag not found", statusCode := 404 }, storeCms) ∧
    getTagById storeCms salesOfOne 8 =
      (Outcome.next { message := "Tag not found", statusCode := 404 }, storeCms) :=
  ⟨((cms_handlers_company_scoped storeCms salesOfOne 3 5 {} {}).2.2.2.2.1 (by decide)).1,
   ((cms_handlers_company_scoped storeCms salesOfOne 8 5 {} {}).2.2.2.2.1 (by decide)).1⟩

/-- C7 at the failing input: a sales user of company 1 asks for tag 3 and
content 4 of company 2, and for ids 8 and 9 that name no record.  Each handler
passes `ApiError('... not found', 404)` to `next`; `errorHandler` does not read
the error's status code and, `res.statusCode` being 200, answers 500. -/
theorem cms_not_found_answered_500 :
    (getTagById storeCms salesOfOne 3).1 =
      Outcome.next { message := "Tag not found", statusCode := 404 } ∧
    (getTagById storeCms salesOfOne 3).1.status = 500 ∧
    (getTagById storeCms salesOfOne 8).1.status = 500 ∧
    (updateTag 5 storeCms salesOfOne 3 {}).1.status = 500 ∧
    (deleteTag storeCms salesOfOne 3).1.status = 500 ∧
    (getContentById storeCms salesOfOne 4).1.status = 500 ∧
    (getContentById storeCms salesOfOne 9).1.status = 500 ∧
    (updateContent 5 storeCms salesOfOne 4 {}).1.status = 500 ∧
    (deleteContent storeCms salesOfOne 4).1.status = 500 := by
  decide

/-! ### Interaction handlers -/

/-- C8 at the failing input: a sales user of company 1 updates and deletes
interaction 1, whose lead 1 belongs to client 1 of company 1.  Both handlers
reach `lead.company_id.toString()`, throw with no status set (answer 500), and
leave the store as it was. -/
theorem interaction_handlers_own_company_internal_error :
    findById storeTwoCompanies.interactions 1 = some { _id := 1, lead_id := 1 } ∧
    (findById storeTwoCompanies.leads 1).map (fun l => l.client_id) = some 1 ∧
    (findById storeTwoCompanies.clients 1).map (fun c => c.company_id) = salesOfOne.company_id ∧
    updateInteraction 5 storeTwoCompanies salesOfOne 1 { description := some "met" } =
      (typeError "toString", storeTwoCompanies) ∧
    (updateInteraction 5 storeTwoCompanies salesOfOne 1 { description := some "met" }).1.status
      = 500 ∧
    deleteInteraction storeTwoCompanies salesOfOne 1 = (typeError "toString", storeTwoCompanies) ∧
    (deleteInteraction storeTwoCompanies salesOfOne 1).1.status = 500 := by
  decide

/-! ### Broken references -/

/-- C9, as stated, fails: for a sales user of company 1, a contact, a note and
a lead whose client is gone give 403, and a task whose interaction is gone
gives an exception with no status set (answer 500); none gives 404. -/
theorem broken_reference_not_404 :
    findById storeDangling.clients 99 = none ∧
    findById storeDangling.interactions 99 = none ∧
    (getContactById storeDangling salesOfOne 1).1.status = 403 ∧
    (getNoteById storeDangling salesOfOne 1).1.status = 403 ∧
    (updateLead 5 storeDangling salesOfOne 1 {}).1.status = 403 ∧
    (deleteLead storeDangling salesOfOne 1).1.status = 403 ∧
    (getTaskById storeDangling salesOfOne 1).1.status = 500 ∧
    (updateTask 5 storeDangling salesOfOne 1 {}).1.status = 500 ∧
    (deleteTask storeDangling salesOfOne 1).1.status = 500 := by
  decide

/-- C9 (amended): for a tenant-bound non-admin caller and a stored contact,
note or lead whose client does not exist, `getContactById`, `getNoteById`,
`updateLead` and `deleteLead` end with status 403 and their
'Not authorized ...' message, and leave the store as it was. -/
theorem broken_client_reference_denied (s : Store) (u : User) (c : Nat)
    (hsuper : u.role ≠ Role.super_admin) (hadmin : u.role ≠ Role.admin)
    (hc : u.company_id = some c) :
    (∀ id contact, findById s.contacts id = some contact →
      findById s.clients contact.client_id = none →
      getContactById s u id = (Outcome.thrown 403 "Not authorized to access this contact", s)) ∧
    (∀ id note, findById s.notes id = some note →
      findById s.clients note.client_id = none →
      getNoteById s u id = (Outcome.thrown 403 "Not authorized to access this note", s)) ∧
    (∀ id lead now body, findById s.leads id = some lead →
      findById s.clients lead.client_id = none →
      updateLead now s u id body = (Outcome.thrown 403 "Not authorized to update this lead", s) ∧
      deleteLead s u id = (Outcome.thrown 403 "Not authorized to delete this lead", s)) := by
  refine ⟨?_, ?_, ?_⟩
  · intro id contact hf hnone
    simp [getContactById, hf, hnone, hsuper, hadmin, hc]
  · intro id note hf hnone
    simp [getNoteById, hf, hnone, hsuper, hadmin, hc]
  · intro id lead now body hf hnone
    simp [updateLead, deleteLead, leadDenied, hf, hnone, hsuper, hadmin, hc]

/-- Witness for `broken_client_reference_denied`: the sales user of company 1
reads contact 1, whose client 99 does not exist. -/
theorem broken_client_reference_denied_witness :
    getContactById storeDangling salesOfOne 1 =
      (Outcome.thrown 403 "Not authorized to access this contact", storeDangling) :=
  (broken_client_reference_denied storeDangling salesOfOne 1 (by decide) (by decide) rfl).1
    1 { _id := 1, client_id := 99, name := "Roe", prenom := "Jo", email := "jo@acme.io" }
    (by decide) (by decide)

/-! ### List handlers -/

/-- C2 at the failing input: a sales user of company 1 calls `getLeads` with
`client_id` = 2, a client of company 2.  The handler replaces the company
filter by `{ client_id }` and returns lead 2, whose client belongs to
company 2. -/
theorem getLeads_client_id_crosses_company :
    salesOfOne.role ≠ Role.super_admin ∧ salesOfOne.company_id = some 1 ∧
    (findById storeTwoCompanies.clients 2).map (fun c => c.company_id) = some 2 ∧
    (getLeads noRegExp storeTwoCompanies salesOfOne { client_id := some 2 }).1 =
      Outcome.json 200
        { data := [({ _id := 2, user_id := 12, client_id := 2, name := "L2" }, [])],
          page := 1, limit := 10, totalPages := 1, total := 1 } := by
  decide

/-- C4, as stated, fails: for a super admin whose user record carries company 1
the totals of `getTasks`, `getContacts`, `getNotes` and `getInteractions` count
only the records of company 1, although the store holds 3 tasks, 2 contacts,
2 notes and 2 interactions of two companies. -/
theorem list_handlers_super_admin_narrowed :
    superOfOne.role = Role.super_admin ∧
    storeTwoCompanies.tasks.length = 3 ∧
    (getTasks noRegExp storeTwoCompanies superOfOne {}).1 =
      Outcome.json 200
        { data := [{ _id := 1, interaction_id := 1, titre := "T1", due_date := 7, assigned_to := 10 },
                   { _id := 2, interaction_id := 1, titre := "T2", due_date := 8, assigned_to := 10 }],
          page := 1, limit := 10, totalPages := 1, total := 2 } ∧
    storeTwoCompanies.contacts.length = 2 ∧
    (getContacts noRegExp storeTwoCompanies superOfOne {}).1 =
      Outcome.json 200
        { data := [{ _id := 1, client_id := 1, name := "Roe", prenom := "Jo", email := "jo@acme.io" }],
          page := 1, limit := 10, totalPages := 1, total := 1 } ∧
    countDocuments storeTwoCompanies.contacts (getContactsQuery storeTwoCompanies superOfOne) = 1 ∧
    countDocuments storeTwoCompanies.notes (getNotesQuery storeTwoCompanies superOfOne) = 1 ∧
    countDocuments storeTwoCompanies.interactions
      (getInteractionsQuery storeTwoCompanies superOfOne) = 1 := by
  decide


theorem findById_mem {α : Type} [Doc α] {l : List α} {id : Nat} {a : α}
    (h : findById l id = some a) : a ∈ l ∧ Doc.id a = id := by
  unfold findById at h
  exact ⟨List.mem_of_find?_eq_some h, by simpa using List.find?_some h⟩

theorem findById_of_nodup {α : Type} [Doc α] {id : Nat} {a : α} :
    ∀ {l : List α}, (l.map Doc.id).Nodup → a ∈ l → Doc.id a = id → findById l id = some a
  | [], _, h, _ => by cases h
  | d :: l, hn, h, hid => by
    rw [List.map_cons, List.nodup_cons] at hn
    rcases List.mem_cons.1 h with rfl | h'
    · simp [findById, hid]
    · have hne : Doc.id d ≠ id := by
        intro hd
        apply hn.1
        rw [hd, ← hid]
        exact List.mem_map_of_mem _ h'
      have := findById_of_nodup hn.2 h' hid
      unfold findById at this ⊢
      simp [List.find?_cons, hne, this]

theorem mem_idsOf {α : Type} [Doc α] (l : List α) (x : Nat) :
    Val.oid x ∈ idsOf l ↔ ∃ d ∈ l, Doc.id d = x := by
  simp [idsOf]

theorem sortBy_perm {α : Type} (le : α → α → Bool) : ∀ l : List α, (sortBy le l).Perm l
  | [] => List.Perm.refl _
  | a :: l => by
    have hins : ∀ (x : α) (m : List α), (insertSorted le x m).Perm (x :: m) := by
      intro x m
      induction m with
      | nil => exact List.Perm.refl _
      | cons b m ih =>
        by_cases h : le x b = true
        · simp [insertSorted, h]
        · simp only [insertSorted, h]
          exact (List.Perm.cons b ih).trans (List.Perm.swap x b m)
    exact (hins a (sortBy le l)).trans (List.Perm.cons a (sortBy_perm le l))

theorem applySort_perm {α : Type} [Doc α] (sort : Option SortSpec) (l : List α) :
    (applySort sort l).Perm l := by
  unfold applySort
  cases sort with
  | none => exact List.Perm.refl _
  | some sp =>
    by_cases h : sp.dir < 0
    · simp only [h, if_true]; exact sortBy_perm _ _
    · simp only [h, if_false]; exact sortBy_perm _ _

theorem windows_cover {α : Type} (l : List α) (L : Nat) :
    ∀ n : Nat, ((List.range n).map (fun i => (l.drop (i * L)).take L)).flatten = l.take (n * L)
  | 0 => by simp
  | n + 1 => by
    rw [List.range_succ, List.map_append, List.flatten_append, windows_cover l L n]
    simp [Nat.succ_mul, List.take_add]

theorem le_ceilDiv_mul (n : Nat) (L : Int) (hL : 1 ≤ L) :
    n ≤ (ceilDiv n L).toNat * L.toNat := by
  unfold ceilDiv
  rw [Int.fdiv_eq_ediv _ (by omega)]
  have h1 : (-(n : Int)) / L * L ≤ -(n : Int) := Int.ediv_mul_le _ (by omega)
  have h2 : (-(n : Int)) / L ≤ 0 := by
    by_contra hpos
    have hmul : 1 * L ≤ (-(n : Int)) / L * L :=
      Int.mul_le_mul_of_nonneg_right (by omega) (by omega)
    omega
  have hk : ((-(-(n : Int) / L)).toNat : Int) = -(-(n : Int) / L) := Int.toNat_of_nonneg (by omega)
  have hL' : (L.toNat : Int) = L := Int.toNat_of_nonneg (by omega)
  have : (n : Int) ≤ ((-(-(n : Int) / L)).toNat * L.toNat : Nat) := by
    push_cast
    rw [hk, hL']
    linarith
  exact_mod_cast this


theorem paginateResults_plain {α : Type} [Doc α] (re : RegExpI) (model : List α) (q : Query)
    (o : Options) (hsearch : o.search = none) (hskip : 0 ≤ skipOf o) :
    paginateResults re model q o = Except.ok
      { data := ((applySort o.sort (model.filter q.matches)).drop (skipOf o).toNat).take
          (effectiveLimit o).natAbs
        page := effectivePage o
        limit := effectiveLimit o
        totalPages := ceilDiv (model.filter q.matches).length (effectiveLimit o)
        total := (model.filter q.matches).length } := by
  simp [paginateResults, searchQuery, hsearch, findPage, countDocuments, not_lt.2 hskip]

theorem getTasksQuery_matches_iff (s : Store) (u : User) (p : ListParams) (t : Task)
    (hstatus : p.status = none) (hpersonal : p.personal = none) :
    (getTasksQuery s u p).matches t = true ↔
      ∃ i ∈ s.interactions, i._id = t.interaction_id ∧
      ∃ l ∈ s.leads, l._id = i.lead_id ∧
      ∃ cl ∈ s.clients, cl._id = l.client_id ∧ some cl.company_id = u.company_id := by
  cases hc : u.company_id with
  | none =>
    simp [getTasksQuery, hstatus, hpersonal, Query.matches, Cond.holds, Doc.get, Doc.field,
      Doc.id, idsOf, find, optOid, hc]
  | some c =>
    simp [getTasksQuery, hstatus, hpersonal, Query.matches, Cond.holds, Doc.get, Doc.field,
      Doc.id, idsOf, find, optOid, hc]
    constructor
    · rintro ⟨i, ⟨hi, l, ⟨hl, cl, ⟨hcl, hco⟩, hcid⟩, hlid⟩, hiid⟩
      exact ⟨i, hi, hiid, l, hl, hlid, cl, hcl, hcid, hco⟩
    · rintro ⟨i, hi, hiid, l, hl, hlid, cl, hcl, hcid, hco⟩
      exact ⟨i, ⟨hi, l, ⟨hl, cl, ⟨hcl, hco⟩, hcid⟩, hlid⟩, hiid⟩

theorem taskCompany_eq_some_iff (s : Store) (t : Task) (c : Nat) (hids : s.uniqueIds) :
    taskCompany s t = some c ↔
      ∃ i ∈ s.interactions, i._id = t.interaction_id ∧
      ∃ l ∈ s.leads, l._id = i.lead_id ∧
      ∃ cl ∈ s.clients, cl._id = l.client_id ∧ cl.company_id = c := by
  obtain ⟨hcl, hl, hi⟩ := hids
  constructor
  · intro h
    unfold taskCompany taskClient at h
    cases hfi : findById s.interactions t.interaction_id with
    | none => simp [hfi] at h
    | some i =>
      simp only [hfi, interactionClient] at h
      cases hfl : findById s.leads i.lead_id with
      | none => simp [hfl] at h
      | some l =>
        simp only [hfl] at h
        cases hfc : findById s.clients l.client_id with
        | none => simp [hfc] at h
        | some cl =>
          simp [hfc] at h
          exact ⟨i, (findById_mem hfi).1, (findById_mem hfi).2, l, (findById_mem hfl).1,
            (findById_mem hfl).2, cl, (findById_mem hfc).1, (findById_mem hfc).2, h⟩
  · rintro ⟨i, hi', hiid, l, hl', hlid, cl, hcl', hcid, hco⟩
    have hfi : findById s.interactions t.interaction_id = some i := findById_of_nodup hi hi' hiid
    have hfl : findById s.leads i.lead_id = some l := findById_of_nodup hl hl' hlid
    have hfc : findById s.clients l.client_id = some cl := findById_of_nodup hcl hcl' hcid
    simp [taskCompany, taskClient, interactionClient, hfi, hfl, hfc, hco]


/-- C3: for a store with unique ids, a caller with company `c` and `getTasks`
called with no search, status or personal filter, the answer for page `P >= 1`
and limit `L >= 1` is page `P` of the tasks whose chain
interaction_id -> lead_id -> client_id ends at a client of company `c`, with
`total` their number; the ordered list is a permutation of those tasks and the
pages 1 .. totalPages together are exactly that list. -/
theorem getTasks_exactly_company_tasks (re : RegExpI) (s : Store) (u : User) (c : Nat)
    (p : ListParams)
    (hc : u.company_id = some c) (hids : s.uniqueIds)
    (hplain : p.search = none ∧ p.status = none ∧ p.personal = none)
    (hpage : 1 ≤ effectivePage { page := p.page })
    (hlimit : 1 ≤ effectiveLimit { limit := p.limit }) :
    (tasksOrdered s c).Perm (tasksOfCompany s c) ∧
    getTasks re s u p =
      (Outcome.json 200
        { data := pageWindow (tasksOrdered s c) (effectivePage { page := p.page }).toNat
            (effectiveLimit { limit := p.limit }).toNat
          page := effectivePage { page := p.page }
          limit := effectiveLimit { limit := p.limit }
          totalPages := ceilDiv (tasksOfCompany s c).length (effectiveLimit { limit := p.limit })
          total := (tasksOfCompany s c).length }, s) ∧
    ((List.range (ceilDiv (tasksOfCompany s c).length
        (effectiveLimit { limit := p.limit })).toNat).map
      (fun i => pageWindow (tasksOrdered s c) (i + 1)
        (effectiveLimit { limit := p.limit }).toNat)).flatten = tasksOrdered s c := by
  obtain ⟨hsearch, hstatus, hpersonal⟩ := hplain
  have hfilter : s.tasks.filter (getTasksQuery s u p).matches = tasksOfCompany s c := by
    unfold tasksOfCompany
    apply List.filter_congr
    intro t _
    rw [Bool.eq_iff_iff, beq_iff_eq, getTasksQuery_matches_iff s u p t hstatus hpersonal,
      taskCompany_eq_some_iff s t c hids, hc]
    simp
  have hlen : (tasksOrdered s c).length = (tasksOfCompany s c).length :=
    (applySort_perm _ _).length_eq
  simp only [effectivePage, effectiveLimit] at hpage hlimit ⊢
  refine ⟨applySort_perm _ _, ?_, ?_⟩
  · have hskip0 : 0 ≤ (orDefault (parseInt p.page) 1 - 1) * orDefault (parseInt p.limit) 10 :=
      Int.mul_nonneg (by omega) (by omega)
    simp only [getTasks]
    rw [paginateResults_plain re _ _ _ hsearch
      (by simpa only [skipOf, effectivePage, effectiveLimit] using hskip0)]
    simp only [respondPage, hfilter, skipOf, effectivePage, effectiveLimit]
    generalize orDefault (parseInt p.page) 1 = P at hpage
    generalize orDefault (parseInt p.limit) 10 = L at hlimit
    lift P to ℕ using (by omega)
    lift L to ℕ using (by omega)
    have hskip : (((P : Int) - 1) * (L : Int)).toNat = (P - 1) * L := by
      have h1 : ((P : Int) - 1) = ((P - 1 : ℕ) : Int) := by omega
      rw [h1, ← Nat.cast_mul, Int.toNat_natCast]
    simp [pageWindow, tasksOrdered, hskip]
  · generalize orDefault (parseInt p.limit) 10 = L at hlimit
    have hcover := le_ceilDiv_mul (tasksOfCompany s c).length L hlimit
    have hw := windows_cover (tasksOrdered s c) L.toNat
      (ceilDiv (tasksOfCompany s c).length L).toNat
    simp only [pageWindow, Nat.add_sub_cancel]
    rw [hw, List.take_of_length_le (by rw [hlen]; exact hcover)]


/-- Witness for `getTasks_exactly_company_tasks`: the scenario of the
specification.  The sales user of tenant 1 gets tasks 1 and 2 with total 2; the
sales user of tenant 2, which has no clients, gets an empty list with total 0. -/
theorem getTasks_exactly_company_tasks_witness :
    (getTasks noRegExp storeScenario salesOfOne {}).1 =
      Outcome.json 200
        { data := [{ _id := 1, interaction_id := 1, titre := "T1", due_date := 7, assigned_to := 10 },
                   { _id := 2, interaction_id := 1, titre := "T2", due_date := 8, assigned_to := 10 }],
          page := 1, limit := 10, totalPages := 1, total := 2 } ∧
    (getTasks noRegExp storeScenario salesOfTwo {}).1 =
      Outcome.json 200 { data := [], page := 1, limit := 10, totalPages := 0, total := 0 } :=
  ⟨(congrArg Prod.fst (getTasks_exactly_company_tasks noRegExp storeScenario salesOfOne 1 {} rfl
      (by decide) ⟨rfl, rfl, rfl⟩ (by decide) (by decide)).2.1).trans (by decide),
   (congrArg Prod.fst (getTasks_exactly_company_tasks noRegExp storeScenario salesOfTwo 2 {} rfl
      (by decide) ⟨rfl, rfl, rfl⟩ (by decide) (by decide)).2.1).trans (by decide)⟩

theorem getContactsQuery_matches_iff (s : Store) (u : User) (ct : Contact) :
    (getContactsQuery s u).matches ct = true ↔
      ∃ cl ∈ s.clients, cl._id = ct.client_id ∧ some cl.company_id = u.company_id := by
  cases hc : u.company_id with
  | none =>
    simp [getContactsQuery, Query.matches, Cond.holds, Doc.get, Doc.field, Doc.id, idsOf, find,
      optOid, hc]
  | some c =>
    simp [getContactsQuery, Query.matches, Cond.holds, Doc.get, Doc.field, Doc.id, idsOf, find,
      optOid, hc]
    constructor
    · rintro ⟨cl, ⟨hcl, hco⟩, hid⟩
      exact ⟨cl, hcl, hid, hco⟩
    · rintro ⟨cl, hcl, hid, hco⟩
      exact ⟨cl, ⟨hcl, hco⟩, hid⟩

theorem getNotesQuery_matches_iff (s : Store) (u : User) (n : Note) :
    (getNotesQuery s u).matches n = true ↔
      ∃ cl ∈ s.clients, cl._id = n.client_id ∧ some cl.company_id = u.company_id := by
  cases hc : u.company_id with
  | none =>
    simp [getNotesQuery, Query.matches, Cond.holds, Doc.get, Doc.field, Doc.id, idsOf, find,
      optOid, hc]
  | some c =>
    simp [getNotesQuery, Query.matches, Cond.holds, Doc.get, Doc.field, Doc.id, idsOf, find,
      optOid, hc]
    constructor
    · rintro ⟨cl, ⟨hcl, hco⟩, hid⟩
      exact ⟨cl, hcl, hid, hco⟩
    · rintro ⟨cl, hcl, hid, hco⟩
      exact ⟨cl, ⟨hcl, hco⟩, hid⟩

theorem getInteractionsQuery_matches_iff (s : Store) (u : User) (i : Interaction) :
    (getInteractionsQuery s u).matches i = true ↔
      ∃ l ∈ s.leads, l._id = i.lead_id ∧
      ∃ cl ∈ s.clients, cl._id = l.client_id ∧ some cl.company_id = u.company_id := by
  cases hc : u.company_id with
  | none =>
    simp [getInteractionsQuery, Query.matches, Cond.holds, Doc.get, Doc.field, Doc.id, idsOf,
      find, optOid, hc]
  | some c =>
    simp [getInteractionsQuery, Query.matches, Cond.holds, Doc.get, Doc.field, Doc.id, idsOf,
      find, optOid, hc]
    constructor
    · rintro ⟨l, ⟨hl, cl, ⟨hcl, hco⟩, hcid⟩, hlid⟩
      exact ⟨l, hl, hlid, cl, hcl, hcid, hco⟩
    · rintro ⟨l, hl, hlid, cl, hcl, hcid, hco⟩
      exact ⟨l, ⟨hl, cl, ⟨hcl, hco⟩, hcid⟩, hlid⟩

/-- C4 (amended): for a super admin, no explicit parent id and no search,
status or personal filter, `getLeads` counts every lead of the store, while
`getTasks`, `getContacts`, `getNotes` and `getInteractions` answer the same for
every role and count exactly the records matching their filter, which a record
matches if and only if its chain ends at a client whose company is the
caller's `company_id`. -/
theorem list_handlers_super_admin_filters (re : RegExpI) (s : Store) (u : User) (p : ListParams)
    (hrole : u.role = Role.super_admin)
    (hparent : p.client_id = none ∧ p.lead_id = none)
    (hplain : p.search = none ∧ p.status = none ∧ p.personal = none)
    (hskip : 0 ≤ skipOf { page := p.page, limit := p.limit }) :
    (∃ env, (getLeads re s u p).1 = Outcome.json 200 env ∧ env.total = s.leads.length) ∧
    ((∃ env, (getTasks re s u p).1 = Outcome.json 200 env ∧
        env.total = (s.tasks.filter (getTasksQuery s u p).matches).length) ∧
      (∀ t : Task, (getTasksQuery s u p).matches t = true ↔
        ∃ i ∈ s.interactions, i._id = t.interaction_id ∧
        ∃ l ∈ s.leads, l._id = i.lead_id ∧
        ∃ cl ∈ s.clients, cl._id = l.client_id ∧ some cl.company_id = u.company_id) ∧
      ∀ r, getTasks re s { u with role := r } p = getTasks re s u p) ∧
    ((∃ env, (getContacts re s u p).1 = Outcome.json 200 env ∧
        env.total = (s.contacts.filter (getContactsQuery s u).matches).length) ∧
      (∀ ct : Contact, (getContactsQuery s u).matches ct = true ↔
        ∃ cl ∈ s.clients, cl._id = ct.client_id ∧ some cl.company_id = u.company_id) ∧
      ∀ r, getContacts re s { u with role := r } p = getContacts re s u p) ∧
    ((∃ env, (getNotes re s u p).1 = Outcome.json 200 env ∧
        env.total = (s.notes.filter (getNotesQuery s u).matches).length) ∧
      (∀ n : Note, (getNotesQuery s u).matches n = true ↔
        ∃ cl ∈ s.clients, cl._id = n.client_id ∧ some cl.company_id = u.company_id) ∧
      ∀ r, getNotes re s { u with role := r } p = getNotes re s u p) ∧
    ((∃ env, (getInteractions re s u p).1 = Outcome.json 200 env ∧
        env.total = (s.interactions.filter (getInteractionsQuery s u).matches).length) ∧
      (∀ i : Interaction, (getInteractionsQuery s u).matches i = true ↔
        ∃ l ∈ s.leads, l._id = i.lead_id ∧
        ∃ cl ∈ s.clients, cl._id = l.client_id ∧ some cl.company_id = u.company_id) ∧
      ∀ r, getInteractions re s { u with role := r } p = getInteractions re s u p) := by
  obtain ⟨hclient, hlead⟩ := hparent
  obtain ⟨hsearch, hstatus, hpersonal⟩ := hplain
  have hk : ∀ (fields : List String) (sort : Option SortSpec),
      0 ≤ skipOf { page := p.page, limit := p.limit, search := p.search,
                   searchFields := fields, sort := sort } := fun _ _ => hskip
  refine ⟨?_, ⟨?_, ?_, ?_⟩, ⟨?_, ?_, ?_⟩, ⟨?_, ?_, ?_⟩, ⟨?_, ?_, ?_⟩⟩
  · simp only [getLeads]
    rw [paginateResults_plain re _ _ _ hsearch (hk _ _)]
    simp [getLeadsQuery, hrole, hpersonal, hclient, Query.matches]
  · simp only [getTasks]
    rw [paginateResults_plain re _ _ _ hsearch (hk _ _)]
    simp [respondPage]
  · intro t
    exact getTasksQuery_matches_iff s u p t hstatus hpersonal
  · intro r
    rfl
  · simp only [getContacts]
    rw [paginateResults_plain re _ _ _ hsearch (hk _ _)]
    simp [respondPage]
  · exact getContactsQuery_matches_iff s u
  · intro r
    rfl
  · simp only [getNotes]
    rw [paginateResults_plain re _ _ _ hsearch (hk _ _)]
    simp [respondPage]
  · exact getNotesQuery_matches_iff s u
  · intro r
    rfl
  · simp only [getInteractions, hlead]
    rw [paginateResults_plain re _ _ _ hsearch (hk _ _)]
    simp [respondPage]
  · exact getInteractionsQuery_matches_iff s u
  · intro r
    simp only [getInteractions, hlead]
    rfl


/-- Witness for `list_handlers_super_admin_filters`: the super admin of
company 1 lists the store of two companies with default paging. -/
theorem list_handlers_super_admin_filters_witness :
    ∃ env, (getLeads noRegExp storeTwoCompanies superOfOne {}).1 = Outcome.json 200 env ∧
      env.total = storeTwoCompanies.leads.length :=
  (list_handlers_super_admin_filters noRegExp storeTwoCompanies superOfOne {} rfl ⟨rfl, rfl⟩
    ⟨rfl, rfl, rfl⟩ (by decide)).1


/-! ### Pagination -/

theorem paginateResults_of_searchQuery {α : Type} [Doc α] (re : RegExpI) (model : List α)
    (q sq : Query) (o : Options) (hsq : searchQuery re q o = Except.ok sq)
    (hskip : 0 ≤ skipOf o) :
    paginateResults re model q o = Except.ok
      { data := ((matchingOrdered model sq o.sort).drop (skipOf o).toNat).take
          (effectiveLimit o).natAbs
        page := effectivePage o
        limit := effectiveLimit o
        totalPages := ceilDiv (countDocuments model sq) (effectiveLimit o)
        total := countDocuments model sq } := by
  simp [paginateResults, hsq, findPage, countDocuments, not_lt.2 hskip, matchingOrdered]

theorem paginateResults_page {α : Type} [Doc α] (re : RegExpI) (model : List α)
    (q sq : Query) (o : Options) (hsq : searchQuery re q o = Except.ok sq)
    (hlimit : 1 ≤ effectiveLimit o) (p : Nat) (hp : 1 ≤ p) (hp21 : p < 10 ^ 21) :
    paginateResults re model q { o with page := JsVal.num p } = Except.ok
      { data := pageWindow (matchingOrdered model sq o.sort) p (effectiveLimit o).toNat
        page := p
        limit := effectiveLimit o
        totalPages := ceilDiv (countDocuments model sq) (effectiveLimit o)
        total := countDocuments model sq } := by
  have hpage : effectivePage { o with page := JsVal.num p } = (p : Int) := by
    have hne : (p : Int) ≠ 0 := by omega
    have h21 : (p : Int).natAbs < 10 ^ 21 := by simpa using hp21
    simp only [effectivePage, parseInt, h21, if_true, orDefault, hne, if_false]
  have hlim : effectiveLimit { o with page := JsVal.num p } = effectiveLimit o := rfl
  have hsq' : searchQuery re q { o with page := JsVal.num p } = Except.ok sq := hsq
  have hskip : skipOf { o with page := JsVal.num p } = (((p - 1) * (effectiveLimit o).toNat : Nat) : Int) := by
    unfold skipOf
    rw [hpage, hlim]
    have h1 : ((p : Int) - 1) = ((p - 1 : ℕ) : Int) := by omega
    have h2 : (((effectiveLimit o).toNat : Nat) : Int) = effectiveLimit o :=
      Int.toNat_of_nonneg (by omega)
    rw [h1, Nat.cast_mul, h2]
  rw [paginateResults_of_searchQuery re model q sq _ hsq' (by rw [hskip]; exact Int.natCast_nonneg _)]
  rw [hskip, hpage, hlim]
  have h3 : (effectiveLimit o).natAbs = (effectiveLimit o).toNat := by omega
  simp only [pageWindow, h3, Int.toNat_natCast]

theorem pageWindow_beyond {α : Type} (l : List α) (p L : Nat) (h : l.length ≤ (p - 1) * L) :
    pageWindow l p L = [] := by
  simp [pageWindow, List.drop_of_length_le h]

theorem matchingOrdered_length {α : Type} [Doc α] (model : List α) (sq : Query)
    (sort : Option SortSpec) : (matchingOrdered model sq sort).length = countDocuments model sq :=
  (applySort_perm _ _).length_eq

theorem pages_flatten {α : Type} (l : List α) (L : Int) (hL : 1 ≤ L) :
    ((List.range (ceilDiv l.length L).toNat).map
      (fun i => pageWindow l (i + 1) L.toNat)).flatten = l := by
  have hcover := le_ceilDiv_mul l.length L hL
  have hw := windows_cover l L.toNat (ceilDiv l.length L).toNat
  simp only [pageWindow, Nat.add_sub_cancel]
  rw [hw, List.take_of_length_le hcover]

theorem fdiv_neg_neg : ∀ (a b : Int), b < 0 → Int.fdiv a b = Int.fdiv (-a) (-b)
  | Int.ofNat 0, Int.negSucc _, _ => by simp
  | Int.ofNat (_ + 1), Int.negSucc _, _ => rfl
  | Int.negSucc _, Int.negSucc _, _ => rfl
  | _, Int.ofNat k, h => absurd h (by simp)

theorem ceilDiv_bounds_pos (t l : Int) (hl : 0 < l) :
    (ceilDiv t l - 1) * l < t ∧ t ≤ ceilDiv t l * l := by
  unfold ceilDiv
  rw [Int.fdiv_eq_ediv _ (le_of_lt hl)]
  have h1 := Int.ediv_mul_le (-t) (ne_of_gt hl)
  have h2 := Int.lt_ediv_add_one_mul_self (-t) hl
  constructor <;> nlinarith

theorem ceilDiv_bounds_neg (t l : Int) (hl : l < 0) :
    t < (ceilDiv t l - 1) * l ∧ ceilDiv t l * l ≤ t := by
  unfold ceilDiv
  rw [fdiv_neg_neg _ _ hl, Int.fdiv_eq_ediv _ (by omega), neg_neg]
  have h1 := Int.ediv_mul_le t (b := -l) (by omega)
  have h2 := Int.lt_ediv_add_one_mul_self t (b := -l) (by omega)
  constructor <;> nlinarith

theorem ceilDiv_eq_ceil (t l : Int) (hl : l ≠ 0) : ceilDiv t l = ⌈(t : ℚ) / (l : ℚ)⌉ := by
  symm
  rw [Int.ceil_eq_iff]
  rcases lt_or_gt_of_ne hl with hneg | hpos
  · obtain ⟨h1, h2⟩ := ceilDiv_bounds_neg t l hneg
    have hq : (l : ℚ) < 0 := by exact_mod_cast hneg
    have h1' : (t : ℚ) < ((ceilDiv t l : ℚ) - 1) * l := by exact_mod_cast h1
    have h2' : (ceilDiv t l : ℚ) * l ≤ t := by exact_mod_cast h2
    constructor
    · rw [lt_div_iff_of_neg hq]; exact h1'
    · rw [div_le_iff_of_neg hq]; exact h2'
  · obtain ⟨h1, h2⟩ := ceilDiv_bounds_pos t l hpos
    have hq : (0 : ℚ) < l := by exact_mod_cast hpos
    have h1' : ((ceilDiv t l : ℚ) - 1) * l < t := by exact_mod_cast h1
    have h2' : (t : ℚ) ≤ (ceilDiv t l : ℚ) * l := by exact_mod_cast h2
    constructor
    · rw [lt_div_iff₀ hq]; exact h1'
    · rw [div_le_iff₀ hq]; exact h2'

theorem ceilDiv_toNat_le (n : Nat) (L : Int) (hL : 1 ≤ L) : (ceilDiv n L).toNat ≤ n := by
  have hb := (ceilDiv_bounds_pos n L (by omega)).1
  by_cases h0 : ceilDiv n L ≤ 0
  · rw [Int.toNat_eq_zero.2 h0]; exact Nat.zero_le _
  · have h1 : ceilDiv (↑n) L - 1 ≤ (ceilDiv (↑n) L - 1) * L :=
      le_mul_of_one_le_right (by omega) hL
    omega

/-- C11: for a filter whose search step succeeds, a limit `L >= 1` and a data
set with `total + L` at most 2^53 (where the numbers of the program are exact),
page `p` of `paginateResults`, for `p` from 1 to totalPages, is window `p` of
the matching records in sort order; over these pages the lengths of `data` add
up to `total`, the number of matching records, the pages together are the
ordered list, and, when the collection holds no record twice, no two pages
share a record. -/
theorem paginateResults_pages_partition {α : Type} [Doc α] (re : RegExpI) (model : List α)
    (q sq : Query) (o : Options) (hsq : searchQuery re q o = Except.ok sq)
    (hlimit : 1 ≤ effectiveLimit o)
    (hsafe : (countDocuments model sq : Int) + effectiveLimit o ≤ 2 ^ 53) :
    (∀ p : Nat, 1 ≤ p → p ≤ (ceilDiv (countDocuments model sq) (effectiveLimit o)).toNat →
      paginateResults re model q { o with page := JsVal.num p } = Except.ok
        { data := pageWindow (matchingOrdered model sq o.sort) p (effectiveLimit o).toNat
          page := p
          limit := effectiveLimit o
          totalPages := ceilDiv (countDocuments model sq) (effectiveLimit o)
          total := countDocuments model sq }) ∧
    (((List.range (ceilDiv (countDocuments model sq) (effectiveLimit o)).toNat).map
        (fun i => (pageWindow (matchingOrdered model sq o.sort) (i + 1)
          (effectiveLimit o).toNat).length)).sum = countDocuments model sq) ∧
    (((List.range (ceilDiv (countDocuments model sq) (effectiveLimit o)).toNat).map
        (fun i => pageWindow (matchingOrdered model sq o.sort) (i + 1)
          (effectiveLimit o).toNat)).flatten = matchingOrdered model sq o.sort) ∧
    (model.Nodup →
      List.Pairwise List.Disjoint
        ((List.range (ceilDiv (countDocuments model sq) (effectiveLimit o)).toNat).map
          (fun i => pageWindow (matchingOrdered model sq o.sort) (i + 1)
            (effectiveLimit o).toNat))) := by
  have hflat := pages_flatten (matchingOrdered model sq o.sort) (effectiveLimit o) hlimit
  rw [matchingOrdered_length] at hflat
  refine ⟨fun p hp hle => paginateResults_page re model q sq o hsq hlimit p hp ?_, ?_, hflat, ?_⟩
  · have h1 := ceilDiv_toNat_le (countDocuments model sq) (effectiveLimit o) hlimit
    have h2 : (countDocuments model sq : Int) ≤ 2 ^ 53 := by omega
    have h3 : countDocuments model sq ≤ 2 ^ 53 := by exact_mod_cast h2
    have h4 : (2 : Nat) ^ 53 < 10 ^ 21 := by norm_num
    omega
  · have := congrArg List.length hflat
    rw [List.length_flatten, List.map_map, matchingOrdered_length] at this
    exact this
  · intro hnd
    have hord : (matchingOrdered model sq o.sort).Nodup :=
      (applySort_perm _ _).nodup_iff.2 (hnd.filter _)
    rw [← hflat] at hord
    exact (List.nodup_flatten.1 hord).2

/-- Witness for `paginateResults_pages_partition`: the two clients of the store
of two companies, one per page. -/
theorem paginateResults_pages_partition_witness :
    paginateResults noRegExp storeTwoCompanies.clients {}
        { limit := JsVal.num 1, page := JsVal.num 2 } = Except.ok
      { data := [{ _id := 2, company_id := 2, name := "Globex" }]
        page := 2, limit := 1, totalPages := 2, total := 2 } :=
  ((paginateResults_pages_partition noRegExp storeTwoCompanies.clients {} {}
    { limit := JsVal.num 1 } rfl (by decide) (by decide)).1 2 (by decide) (by decide)).trans
    (congrArg Except.ok (by decide))

theorem orDefault_ne_zero (x : Option Int) (d : Int) (hd : d ≠ 0) : orDefault x d ≠ 0 := by
  unfold orDefault
  cases x with
  | none => exact hd
  | some n => by_cases h : n = 0 <;> simp [h, hd]

theorem paginateResults_ok_inv {α : Type} [Doc α] (re : RegExpI) (model : List α) (q : Query)
    (o : Options) (env : Envelope α) (h : paginateResults re model q o = Except.ok env) :
    ∃ sq, searchQuery re q o = Except.ok sq ∧ 0 ≤ skipOf o ∧
      env.total = countDocuments model sq ∧ env.limit = effectiveLimit o ∧
      env.page = effectivePage o ∧
      env.totalPages = ceilDiv (countDocuments model sq) (effectiveLimit o) ∧
      env.data = ((matchingOrdered model sq o.sort).drop (skipOf o).toNat).take
        (effectiveLimit o).natAbs := by
  cases hsq : searchQuery re q o with
  | error e => simp [paginateResults, hsq] at h
  | ok sq =>
    by_cases hskip : 0 ≤ skipOf o
    · rw [paginateResults_of_searchQuery re model q sq o hsq hskip] at h
      injection h with h
      subst h
      exact ⟨sq, rfl, hskip, rfl, rfl, rfl, rfl, rfl⟩
    · simp [paginateResults, hsq, findPage, not_le.1 hskip] at h

/-- Whenever `paginateResults` returns an envelope, its `limit` is not 0,
`totalPages` is the ceiling of `total / limit`, `total` is the count of the
filter the search step built, and a call with any other page and limit that
returns gives the same `total`; it does return when the search step succeeds
and the skip is not negative. -/
theorem paginateResults_totalPages_is_ceiling {α : Type} [Doc α] (re : RegExpI)
    (model : List α) (q : Query) (o : Options) :
    (∀ sq, searchQuery re q o = Except.ok sq → 0 ≤ skipOf o →
      ∃ env, paginateResults re model q o = Except.ok env) ∧
    (∀ env, paginateResults re model q o = Except.ok env →
      env.limit ≠ 0 ∧
      env.totalPages = ⌈((env.total : ℤ) : ℚ) / (env.limit : ℚ)⌉ ∧
      (∃ sq, searchQuery re q o = Except.ok sq ∧ env.total = countDocuments model sq) ∧
      ∀ page limit env',
        paginateResults re model q { o with page := page, limit := limit } = Except.ok env' →
        env'.total = env.total) := by
  constructor
  · intro sq hsq hskip
    exact ⟨_, paginateResults_of_searchQuery re model q sq o hsq hskip⟩
  · intro env h
    obtain ⟨sq, hsq, _, htotal, hlimit, _, htp, _⟩ := paginateResults_ok_inv re model q o env h
    have hne : env.limit ≠ 0 := by
      rw [hlimit]
      exact orDefault_ne_zero _ _ (by decide)
    refine ⟨hne, ?_, ⟨sq, hsq, htotal⟩, ?_⟩
    · rw [htp, htotal, hlimit]
      exact ceilDiv_eq_ceil _ _ (hlimit ▸ hne)
    · intro page limit env' h'
      obtain ⟨sq', hsq', _, htotal', _⟩ := paginateResults_ok_inv re model q _ env' h'
      have : searchQuery re q { o with page := page, limit := limit } = searchQuery re q o := rfl
      rw [this, hsq] at hsq'
      injection hsq' with hsq'
      rw [htotal', htotal, hsq']

/-- An instance of `paginateResults_totalPages_is_ceiling`: the default page of
the clients of the store of two companies. -/
theorem paginateResults_totalPages_is_ceiling_witness :
    ∃ env, paginateResults noRegExp storeTwoCompanies.clients {} {} = Except.ok env :=
  (paginateResults_totalPages_is_ceiling noRegExp storeTwoCompanies.clients {} {}).1 {} rfl
    (by decide)

/-- C15 at the failing input `limit = "-5"`: the envelope carries limit -5 and
total 2 while `data` holds 2 records, more than the limit. -/
theorem paginateResults_negative_limit_envelope :
    (paginateResults noRegExp storeTwoCompanies.clients {} { limit := JsVal.str "-5" }).toOption.map
      (fun env => (env.limit, env.data.length, env.total)) = some (-5, 2, 2) := by
  decide

/-- C16: for a filter whose search step succeeds, a limit `L >= 1` and a page
`P` beyond totalPages with `P * L` at most 2^53 (where the numbers of the
program are exact), the call returns an envelope with empty `data` and the
`total`, `totalPages` and `limit` of page 1. -/
theorem paginateResults_page_beyond_range {α : Type} [Doc α] (re : RegExpI) (model : List α)
    (q sq : Query) (o : Options) (hsq : searchQuery re q o = Except.ok sq)
    (hlimit : 1 ≤ effectiveLimit o) (P : Nat)
    (hP : (ceilDiv (countDocuments model sq) (effectiveLimit o)).toNat + 1 ≤ P)
    (hsafe : (P : Int) * effectiveLimit o ≤ 2 ^ 53) :
    ∃ env₁, paginateResults re model q { o with page := JsVal.num 1 } = Except.ok env₁ ∧
      env₁.total = countDocuments model sq ∧
      paginateResults re model q { o with page := JsVal.num P } = Except.ok
        { data := [], page := P, limit := env₁.limit, totalPages := env₁.totalPages,
          total := env₁.total } := by
  have hP21 : P < 10 ^ 21 := by
    have h1 : (P : Int) ≤ (P : Int) * effectiveLimit o :=
      le_mul_of_one_le_right (Int.natCast_nonneg P) hlimit
    have h2 : (P : Int) ≤ 2 ^ 53 := le_trans h1 hsafe
    have h3 : P ≤ 2 ^ 53 := by exact_mod_cast h2
    have h4 : (2 : Nat) ^ 53 < 10 ^ 21 := by norm_num
    omega
  refine ⟨_, paginateResults_page re model q sq o hsq hlimit 1 (le_refl 1) (by norm_num), rfl,
    ?_⟩
  rw [paginateResults_page re model q sq o hsq hlimit P (by omega) hP21]
  have hcover := le_ceilDiv_mul (countDocuments model sq) (effectiveLimit o) hlimit
  have hbeyond : (matchingOrdered model sq o.sort).length ≤ (P - 1) * (effectiveLimit o).toNat := by
    rw [matchingOrdered_length]
    calc countDocuments model sq
        ≤ (ceilDiv (countDocuments model sq) (effectiveLimit o)).toNat *
            (effectiveLimit o).toNat := hcover
      _ ≤ (P - 1) * (effectiveLimit o).toNat := Nat.mul_le_mul_right _ (by omega)
  rw [pageWindow_beyond _ _ _ hbeyond]

/-- Witness for `paginateResults_page_beyond_range`: page 3 of the two clients,
one per page. -/
theorem paginateResults_page_beyond_range_witness :
    ∃ env₁, paginateResults noRegExp storeTwoCompanies.clients {}
        { limit := JsVal.num 1, page := JsVal.num 1 } = Except.ok env₁ ∧
      env₁.total = countDocuments storeTwoCompanies.clients {} ∧
      paginateResults noRegExp storeTwoCompanies.clients {}
          { limit := JsVal.num 1, page := JsVal.num 3 } = Except.ok
        { data := [], page := 3, limit := env₁.limit, totalPages := env₁.totalPages,
          total := env₁.total } :=
  paginateResults_page_beyond_range noRegExp storeTwoCompanies.clients {} {}
    { limit := JsVal.num 1 } rfl (by decide) 3 (by decide) (by decide)

/-- C17: with `page` and `limit` omitted and a search step that succeeds,
`paginateResults` returns the first 10 of the `N` matching records:
`data.length = min N 10`, page 1, limit 10 and `totalPages = ceil (N / 10)`. -/
theorem paginateResults_defaults {α : Type} [Doc α] (re : RegExpI) (model : List α)
    (q sq : Query) (o : Options) (N : Nat) (hsq : searchQuery re q o = Except.ok sq)
    (hpage : o.page = JsVal.undefined) (hlimit : o.limit = JsVal.undefined)
    (hN : countDocuments model sq = N) :
    ∃ env, paginateResults re model q o = Except.ok env ∧
      env.data = (matchingOrdered model sq o.sort).take 10 ∧
      env.data.length = min N 10 ∧ env.page = 1 ∧ env.limit = 10 ∧
      env.totalPages = ⌈((N : ℤ) : ℚ) / 10⌉ ∧ env.totalPages = ((N + 9) / 10 : Nat) ∧
      env.total = N := by
  have hP : effectivePage o = 1 := by simp [effectivePage, hpage, parseInt, orDefault]
  have hL : effectiveLimit o = 10 := by simp [effectiveLimit, hlimit, parseInt, orDefault]
  have hskip : skipOf o = 0 := by simp [skipOf, hP]
  refine ⟨_, paginateResults_of_searchQuery re model q sq o hsq (by rw [hskip]), ?_, ?_, ?_, ?_,
    ?_, ?_, ?_⟩
  · simp [hskip, hL]
  · simp [hskip, hL, matchingOrdered_length, hN, Nat.min_comm]
  · exact hP
  · exact hL
  · show ceilDiv (countDocuments model sq) (effectiveLimit o) = _
    rw [hL, hN, ceilDiv_eq_ceil _ _ (by decide)]
    norm_num
  · show ceilDiv (countDocuments model sq) (effectiveLimit o) = _
    rw [hL, hN]
    unfold ceilDiv
    rw [Int.fdiv_eq_ediv _ (by decide)]
    omega
  · exact hN

/-- Witness for `paginateResults_defaults`: 25 matching records give 10 records
on the page and 3 pages. -/
theorem paginateResults_defaults_witness :
    ∃ env, paginateResults noRegExp twentyFiveNotes {} {} = Except.ok env ∧
      env.data.length = 10 ∧ env.totalPages = 3 ∧ env.total = 25 := by
  obtain ⟨env, h, _, hlen, _, _, _, htp, htotal⟩ :=
    paginateResults_defaults noRegExp twentyFiveNotes {} {} {} 25 rfl rfl rfl (by decide)
  exact ⟨env, h, hlen, htp, htotal⟩


/-! ### Search -/

/-- C12 at the failing input: `getAllBlogs` with `audience=french` and
`search=guide`.  The filter carries `$or` for the audience, the search step
sets `$or` again, and the English blog, which the audience filter excludes, is
counted and returned. -/
theorem getAllBlogs_search_drops_audience :
    (getAllBlogsFilter salesOfOne { audience := some "french" }).matches
      ({ _id := 1, company_id := 1, title := "Sales guide", excerpt := "how to", author := "Ann",
         audience := "english" } : Blog) = false ∧
    getAllBlogs plainTermRegExp blogsOfOne salesOfOne
        { audience := some "french", search := some "guide" } =
      Outcome.json 200
        { data := blogsOfOne, page := 1, limit := 10, totalPages := 1, total := 2 } ∧
    getAllBlogs plainTermRegExp blogsOfOne salesOfOne { audience := some "french" } =
      Outcome.json 200
        { data := [{ _id := 2, company_id := 1, title := "Guide de vente", excerpt := "comment",
                     author := "Luc", audience := "french" }],
          page := 1, limit := 10, totalPages := 1, total := 1 } := by
  decide

/-- C14 at the failing input, the one of C12: the audience filter of
`getAllBlogs` for `french` with the search term `guide`.  One blog satisfies
the filter and matches the search, while the envelope carries total 2 (and
totalPages 1, the ceiling of 2 / 10). -/
theorem paginateResults_total_counts_outside_filter :
    countFilterAndSearch blogsOfOne (getAllBlogsFilter salesOfOne { audience := some "french" })
      (fun value => containsCI "guide".data value.data)
      ["title", "excerpt", "author", "content.heading", "content.paragraphs"] = 1 ∧
    (paginateResults plainTermRegExp blogsOfOne
        (getAllBlogsFilter salesOfOne { audience := some "french" })
        (getAllBlogsOptions { audience := some "french", search := some "guide" })).toOption.map
      (fun env => (env.total, env.totalPages, env.limit)) = some (2, 1, 10) := by
  decide

/-- C13 at the failing input `search = "("`: the term is handed to the
regular-expression constructor as a pattern, so on a platform that rejects the
pattern "(" the call throws instead of looking for the text "(". -/
theorem paginateResults_search_term_is_pattern {α : Type} [Doc α] (re : RegExpI)
    (model : List α) (q : Query) (o : Options) (field : String) (fields : List String)
    (hre : re "(" = none) (hsearch : o.search = some "(")
    (hfields : o.searchFields = field :: fields) :
    paginateResults re model q o = Except.error "Invalid regular expression" := by
  simp [paginateResults, searchQuery, hsearch, hfields, hre]

/-- Witness for `paginateResults_search_term_is_pattern`. -/
theorem paginateResults_search_term_is_pattern_witness :
    paginateResults rejectOpenParen storeTwoCompanies.clients {}
        { search := some "(", searchFields := ["name"] } =
      Except.error "Invalid regular expression" :=
  paginateResults_search_term_is_pattern rejectOpenParen storeTwoCompanies.clients {}
    { search := some "(", searchFields := ["name"] } "name" [] (by simp [rejectOpenParen]) rfl rfl

/-- C18 at the failing input: user 10 calls `getLeads` with `personal=true` and
`client_id=1`.  The handler replaces the filter by `{ client_id }` and returns
lead 2, whose `user_id` is 12. -/
theorem getLeads_client_id_drops_personal :
    (getLeads noRegExp storeLeadOwners salesOfOne
        { personal := some "true", client_id := some 1 }).1 =
      Outcome.json 200
        { data := [({ _id := 1, user_id := 10, client_id := 1, name := "L1" }, []),
                   ({ _id := 2, user_id := 12, client_id := 1, name := "L2" }, [])],
          page := 1, limit := 10, totalPages := 1, total := 2 } ∧
    salesOfOne._id = 10 := by
  decide


/-! ### User handlers -/

/-- C19: a caller whose own record is stored and who calls
`userController.deleteUser` with the own id is denied with status 400 and
'Cannot delete your own account', whatever the role, and the store is left as
it was. -/
theorem deleteUser_self_denied (s : Store) (u : User)
    (hstored : findById s.users u._id = some u) :
    UserController.deleteUser s u u._id =
      (Outcome.thrown 400 "Cannot delete your own account", s) := by
  cases hc : u.company_id with
  | none => simp [UserController.deleteUser, UserController.crossCompanyCheck, hstored, hc]
  | some c =>
    by_cases h1 : u.role = Role.super_admin
    · simp [UserController.deleteUser, UserController.crossCompanyCheck, hstored, hc, h1]
    · by_cases h2 : u.role = Role.admin
      · simp [UserController.deleteUser, UserController.crossCompanyCheck, hstored, hc, h2]
      · simp [UserController.deleteUser, UserController.crossCompanyCheck, hstored, hc, h1, h2]

/-- Witness for `deleteUser_self_denied`: the sales user of company 1. -/
theorem deleteUser_self_denied_witness :
    UserController.deleteUser storeUsers salesOfOne 10 =
      (Outcome.thrown 400 "Cannot delete your own account", storeUsers) :=
  deleteUser_self_denied storeUsers salesOfOne (by decide)

/-- C20 at the failing input: the admin of company 1 calls
`authController.deleteUser` with the own id 9; the handler answers
'User removed' and the admin's record is gone from the store. -/
theorem auth_deleteUser_self_removed :
    adminOfOne._id = 9 ∧ findById storeUsers.users 9 = some adminOfOne ∧
    (AuthController.deleteUser storeUsers adminOfOne 9).1 = Outcome.json 200 "User removed" ∧
    findById (AuthController.deleteUser storeUsers adminOfOne 9).2.users 9 = none := by
  decide

/-- C21: for a caller whose role is neither super_admin nor admin and a stored
user whose role is admin, `userController.deleteUser` ends with an exception
(status 403 or 400 set, or none set when the check reads the `company_id` the
admin lacks) and leaves the store as it was. -/
theorem deleteUser_admin_kept (s : Store) (u : User) (id : Nat) (target : User)
    (hsuper : u.role ≠ Role.super_admin) (hadmin : u.role ≠ Role.admin)
    (hfind : findById s.users id = some target) (htarget : target.role = Role.admin) :
    (UserController.deleteUser s u id).2 = s ∧
    (∃ status message, (UserController.deleteUser s u id).1 = Outcome.thrown status message ∧
      (status = 403 ∨ status = 400 ∨ (status = 200 ∧ target.company_id = none))) ∧
    (target.company_id.isSome →
      (UserController.deleteUser s u id).1.status = 403 ∨
      (UserController.deleteUser s u id).1.status = 400) := by
  cases hc : u.company_id with
  | none =>
    by_cases hself : target._id = u._id
    · simp [UserController.deleteUser, UserController.crossCompanyCheck, hfind, hc, hself, Outcome.status, errorHandler]
    · simp [UserController.deleteUser, UserController.crossCompanyCheck, hfind, hc, hself, hsuper, hadmin, htarget, Outcome.status,
        errorHandler]
  | some c =>
    cases ht : target.company_id with
    | none => simp [UserController.deleteUser, UserController.crossCompanyCheck, hfind, hc, ht, hsuper, hadmin, typeError]
    | some tc =>
      by_cases hco : tc = c
      · by_cases hself : target._id = u._id
        · simp [UserController.deleteUser, UserController.crossCompanyCheck, hfind, hc, ht, hco, hsuper, hadmin, hself,
            Outcome.status, errorHandler]
        · simp [UserController.deleteUser, UserController.crossCompanyCheck, hfind, hc, ht, hco, hsuper, hadmin, hself, htarget,
            Outcome.status, errorHandler]
      · simp [UserController.deleteUser, UserController.crossCompanyCheck, hfind, hc, ht, hco, hsuper, hadmin, Outcome.status,
          errorHandler]

/-- Witness for `deleteUser_admin_kept`: the sales user of company 1 tries to
delete the admin of company 1. -/
theorem deleteUser_admin_kept_witness :
    (UserController.deleteUser storeUsers salesOfOne 9).2 = storeUsers :=
  (deleteUser_admin_kept storeUsers salesOfOne 9 adminOfOne (by decide) (by decide) (by decide)
    rfl).1

/-- C22, as stated, fails: `registerUser`, which needs no caller, creates a user
with role admin, and `createUser` called by a manager without company creates a
user with role super_admin. -/
theorem user_creation_escalates :
    ((AuthController.registerUser hashStub signStub 5 storeUsers
        { name := some "Eve", email := some "eve@x.io", password := some "pw",
          role := some Role.admin }).2.users.map (fun user => (user.email, user.role))).contains
      ("eve@x.io", Role.admin) = true ∧
    managerNoCompany.role = Role.manager ∧
    ((UserController.createUser hashStub 5 storeUsers managerNoCompany
        { name := some "Eve", email := some "eve@x.io", password := some "pw",
          role := some Role.super_admin }).2.users.map
      (fun user => (user.email, user.role))).contains ("eve@x.io", Role.super_admin) = true := by
  decide

/-- C22 (amended): `createUser` creates no admin or super_admin for a caller
with role manager, sales, support or user that has a `company_id` (status 403,
or 400 when the email is taken; the store is unchanged); for a caller without
`company_id`, and in `registerUser` for a complete body, an unused email gives a
new user with the role of the body. -/
theorem user_creation_role_rules (hash : String → String) (sign : Nat → String) (now : Nat)
    (s : Store) :
    (∀ u body, u.role ≠ Role.super_admin → u.role ≠ Role.admin → u.company_id.isSome →
      (body.role = some Role.admin ∨ body.role = some Role.super_admin) →
      (UserController.createUser hash now s u body).2 = s ∧
      ((UserController.createUser hash now s u body).1.status = 403 ∨
        (UserController.createUser hash now s u body).1.status = 400)) ∧
    (∀ (u : User) (body : UserController.UserBody), u.company_id = none →
      findOne s.users { fields := [("email", Cond.eq (optStr body.email))] } = none →
      ∃ user, (UserController.createUser hash now s u body).2.users = s.users ++ [user] ∧
        user.role = body.role.getD Role.user) ∧
    (∀ body : AuthController.RegisterBody,
      truthy body.name = true → truthy body.email = true → truthy body.password = true →
      findOne s.users { fields := [("email", Cond.eq (optStr body.email))] } = none →
      ∃ user, (AuthController.registerUser hash sign now s body).2.users = s.users ++ [user] ∧
        user.role = body.role.getD Role.user ∧
        (AuthController.registerUser hash sign now s body).1.status = 201) := by
  refine ⟨?_, ?_, ?_⟩
  · intro u body h1 h2 h3 hrole
    have hrole' : body.role = some Role.super_admin ∨ body.role = some Role.admin := hrole.symm
    cases hf : findOne s.users { fields := [("email", Cond.eq (optStr body.email))] } with
    | some _ => simp [UserController.createUser, hf, Outcome.status, errorHandler]
    | none =>
      simp [UserController.createUser, hf, h1, h2, h3, hrole', Outcome.status, errorHandler]
  · intro u body hc hf
    simp [UserController.createUser, hf, hc]
  · intro body hn he hp hf
    simp [AuthController.registerUser, hf, hn, he, hp, Outcome.status]

/-- Witness for `user_creation_role_rules`: the sales user of company 1 asks for
an admin. -/
theorem user_creation_role_rules_witness :
    (UserController.createUser hashStub 5 storeUsers salesOfOne
      { name := some "Eve", email := some "eve@x.io", password := some "pw",
        role := some Role.admin }).2 = storeUsers :=
  ((user_creation_role_rules hashStub signStub 5 storeUsers).1 salesOfOne
    { name := some "Eve", email := some "eve@x.io", password := some "pw",
      role := some Role.admin } (by decide) (by decide) rfl (Or.inl rfl)).1


/-! ### Lead and client updates -/

/-- C23 at the failing input: the sales user 10 of company 1 updates the own
lead 1 with `{ user_id: 12 }`; the body goes to `findByIdAndUpdate` as it is
and the lead is now owned by user 12. -/
theorem updateLead_user_id_reassigns :
    salesOfOne.role = Role.sales ∧ salesOfOne._id = 10 ∧
    (findById storeUsers.leads 1).map (fun lead => lead.user_id) = some 10 ∧
    (updateLead 5 storeUsers salesOfOne 1 { user_id := some 12 }).1.status = 200 ∧
    (findById (updateLead 5 storeUsers salesOfOne 1 { user_id := some 12 }).2.leads 1).map
      (fun lead => lead.user_id) = some 12 := by
  decide

/-- C29 at the failing input: the sales user of company 1 updates lead 1 with
a changed `statut` and an `assigned_user_id`.  The handler writes the status
log, then denies the reassignment with 403; the log entry stays. -/
theorem updateLead_denied_after_log :
    (updateLead 5 storeUsers salesOfOne 1
      { statut := some "Lost", assigned_user_id := some 12 }).1 =
      Outcome.thrown 403 "Only admins can reassign leads" ∧
    storeUsers.leadStatusLogs = [] ∧
    (updateLead 5 storeUsers salesOfOne 1
      { statut := some "Lost", assigned_user_id := some 12 }).2.leadStatusLogs =
      [{ _id := 1, lead_id := 1, previous_status := some "Start-to-Call", new_status := "Lost",
         changed_by := 10, changed_at := 5, duration := 0 }] := by
  decide

/-- C26 at the failing input: the sales user of company 1 updates client 1 of
company 1 with `{ company_id: 2 }`; the update succeeds and the client now
belongs to company 2. -/
theorem updateClient_moves_company :
    salesOfOne.role ≠ Role.super_admin ∧
    (findById storeUsers.clients 1).map (fun client => client.company_id) = some 1 ∧
    (updateClient 5 storeUsers salesOfOne 1 { company_id := some 2 }).1.status = 200 ∧
    (findById (updateClient 5 storeUsers salesOfOne 1 { company_id := some 2 }).2.clients 1).map
      (fun client => client.company_id) = some 2 := by
  decide

/-- C28: for a caller with company `c`, a client that `createClient` creates
belongs to company `c` and is the one record added to the store; a caller with
role manager, sales, support or user whose body names no or another company is
denied with 403 and the store is unchanged; for an admin or super admin the
client is created with company `c` whatever the body names. -/
theorem createClient_own_company (now : Nat) (s : Store) (u : User) (c : Nat) (body : ClientBody)
    (hc : u.company_id = some c) :
    (∀ status client, (createClient now s u body).1 = Outcome.json status client →
      client.company_id = c ∧ (createClient now s u body).2.clients = s.clients ++ [client]) ∧
    (u.role ≠ Role.super_admin → u.role ≠ Role.admin → body.company_id ≠ some c →
      createClient now s u body =
        (Outcome.thrown 403 "You can only create clients for your own company", s)) ∧
    (u.role = Role.super_admin ∨ u.role = Role.admin →
      ∃ client, (createClient now s u body).1 = Outcome.json 201 client ∧
        client.company_id = c) := by
  refine ⟨?_, ?_, ?_⟩
  · intro status client h
    by_cases hadm : u.role = Role.super_admin ∨ u.role = Role.admin
    · rcases hadm with h1 | h1
      · simp [createClient, hc, h1] at h ⊢
        rw [← h.2]
        simp
      · simp [createClient, hc, h1] at h ⊢
        rw [← h.2]
        simp
    · have h1 : u.role ≠ Role.super_admin := fun h' => hadm (Or.inl h')
      have h2 : u.role ≠ Role.admin := fun h' => hadm (Or.inr h')
      cases hb : body.company_id with
      | none => simp [createClient, hc, h1, h2, hb] at h
      | some b =>
        by_cases hbc : b = c
        · simp [createClient, hc, h1, h2, hb, hbc] at h ⊢
          rw [← h.2]
          simp
        · simp [createClient, hc, h1, h2, hb, hbc] at h
  · intro h1 h2 hb
    cases hb' : body.company_id with
    | none => simp [createClient, hc, h1, h2, hb']
    | some b =>
      have hbc : b ≠ c := fun h' => hb (by rw [hb', h'])
      simp [createClient, hc, h1, h2, hb', hbc]
  · intro hadm
    rcases hadm with h1 | h1 <;> simp [createClient, hc, h1]

/-- Witness for `createClient_own_company`: the admin of company 1 sends a body
naming company 2 and the client is created for company 1. -/
theorem createClient_own_company_witness :
    ∃ client, (createClient 5 storeUsers adminOfOne
        { company_id := some 2, name := some "New" }).1 = Outcome.json 201 client ∧
      client.company_id = 1 :=
  (createClient_own_company 5 storeUsers adminOfOne 1 { company_id := some 2, name := some "New" }
    rfl).2.2 (Or.inr rfl)

/-! ### Company routes -/

/-- C24 at the failing input: the sales user of company 1 requests
`GET /api/companies/2`; the route runs `protect` and `getCompanyById` only and
answers 200 with company 2. -/
theorem getCompany_other_company_returned :
    salesOfOne.role ≠ Role.super_admin ∧ salesOfOne.company_id = some 1 ∧
    routeGetCompany storeUsers salesOfOne 2 =
      (Outcome.json 200 { _id := 2, name := "Two" }, storeUsers) := by
  decide

/-- C25: `isCompanyAdmin` calls `next()` exactly when the caller is a super
admin, or an admin with `req.params.id` present and a `company_id` equal to
it; in every other case it throws with status 403. -/
theorem isCompanyAdmin_next_iff (user : Option User) (paramsId : Option Nat) :
    (isCompanyAdmin user paramsId = Verdict.next ↔
      ∃ u, user = some u ∧
        (u.role = Role.super_admin ∨
          (u.role = Role.admin ∧ paramsId.isSome ∧ u.company_id.isSome ∧
            u.company_id = paramsId))) ∧
    (isCompanyAdmin user paramsId = Verdict.next ∨
      ∃ message, isCompanyAdmin user paramsId = Verdict.thrown 403 message) := by
  cases user with
  | none => simp [isCompanyAdmin]
  | some u =>
    cases hr : u.role <;> cases hp : paramsId <;> cases hc : u.company_id <;>
      simp [isCompanyAdmin, hr, hp, hc]
    rename_i a b
    by_cases h : b = a <;> simp [h]

/-! ### Media keys -/

theorem splitSlash_ne_nil : ∀ s : List Char, splitSlash s ≠ []
  | [] => by simp [splitSlash]
  | c :: cs => by
    unfold splitSlash
    split
    · simp
    · split <;> simp

theorem splitSlash_append_slash : ∀ (a b : List Char), '/' ∉ a →
    splitSlash (a ++ '/' :: b) = a :: splitSlash b
  | [], b, _ => by simp [splitSlash]
  | c :: a, b, h => by
    have hc : c ≠ '/' := fun hc => h (by simp [hc])
    have ha : '/' ∉ a := fun ha => h (List.mem_cons_of_mem _ ha)
    have ih := splitSlash_append_slash a b ha
    have ih' : splitSlash (a.append ('/' :: b)) = a :: splitSlash b := ih
    simp only [List.cons_append, splitSlash, hc, if_false, ih']

theorem joinSlash_cons (part : List Char) (rest : List (List Char)) (h : rest ≠ []) :
    joinSlash (part :: rest) = part ++ '/' :: joinSlash rest := by
  cases rest with
  | nil => exact absurd rfl h
  | cons r rs => rfl

theorem joinSlash_splitSlash : ∀ s : List Char, joinSlash (splitSlash s) = s
  | [] => rfl
  | c :: cs => by
    have ih := joinSlash_splitSlash cs
    by_cases hc : c = '/'
    · subst hc
      simp only [splitSlash, if_true]
      rw [joinSlash_cons _ _ (splitSlash_ne_nil cs), ih]
      rfl
    · simp only [splitSlash, hc, if_false]
      cases hs : splitSlash cs with
      | nil => exact absurd hs (splitSlash_ne_nil cs)
      | cons part parts =>
        rw [hs] at ih
        cases parts with
        | nil =>
          simp only [joinSlash] at ih ⊢
          rw [ih]
        | cons p ps =>
          simp only [joinSlash] at ih ⊢
          rw [← ih]
          rfl

/-- C30: for a bucket name and a region without '/', and every key, splitting
the `file_url` of `uploadMedia` on '/', dropping the first three parts and
joining the rest with '/' gives the key back. -/
theorem keyOfUrl_fileUrl (bucket region key : String)
    (hb : '/' ∉ bucket.data) (hr : '/' ∉ region.data) :
    keyOfUrl (fileUrl bucket region key) = key := by
  have hhost : '/' ∉ bucket.data ++ ".s3.".data ++ region.data ++ ".amazonaws.com".data := by
    simp [hb, hr]
  have hdata : (fileUrl bucket region key).data =
      "https:".data ++ '/' :: ([] ++ '/' ::
        ((bucket.data ++ ".s3.".data ++ region.data ++ ".amazonaws.com".data) ++ '/' :: key.data)) := by
    simp [fileUrl, String.data_append]
  unfold keyOfUrl
  rw [hdata, splitSlash_append_slash _ _ (by decide), splitSlash_append_slash _ _ (by simp),
    splitSlash_append_slash _ _ hhost]
  simp [joinSlash_splitSlash]


/-- Witness for `keyOfUrl_fileUrl`: a key with two '/' in it. -/
theorem keyOfUrl_fileUrl_witness :
    keyOfUrl (fileUrl "crm-media" "eu-west-3" "media/1/17-ab.png") = "media/1/17-ab.png" :=
  keyOfUrl_fileUrl "crm-media" "eu-west-3" "media/1/17-ab.png" (by decide) (by decide)

/-! ### User answers -/

theorem lookupKey_deleteKey_self (obj : JObject) (key : String) :
    lookupKey (deleteKey obj key) key = none := by
  unfold lookupKey deleteKey
  rw [Option.map_eq_none', List.find?_eq_none]
  intro p hp
  have := (List.mem_filter.1 hp).2
  simpa using this

theorem lookupKey_deleteKey_ne (obj : JObject) (key other : String) (h : other ≠ key) :
    lookupKey (deleteKey obj key) other = lookupKey obj other := by
  unfold lookupKey deleteKey
  congr 1
  induction obj with
  | nil => rfl
  | cons p obj ih =>
    by_cases hp : p.1 = key
    · have hne : (p.1 == other) = false := by
        cases hb : (p.1 == other) with
        | false => rfl
        | true => exact absurd ((beq_iff_eq.1 hb).symm.trans hp) h
      rw [List.filter_cons_of_neg (by simp [hp])]
      simp only [List.find?_cons, hne, ih]
    · rw [List.filter_cons_of_pos (by simp [hp])]
      cases ho : (p.1 == other) with
      | true => simp only [List.find?_cons, ho]
      | false => simp only [List.find?_cons, ho, ih]

theorem lookupKey_toObject_ne_company (u : User) (c c' : Option JVal) (key : String)
    (h : key ≠ "company_id") :
    lookupKey (u.toObject c) key = lookupKey (u.toObject c') key := by
  have h' : ¬ ("company_id" = key) := fun e => h e.symm
  cases c <;> cases c' <;> simp [lookupKey, User.toObject, List.find?_cons, h']

theorem lookupKey_toObject_company (u : User) (c : Option JVal) :
    lookupKey (u.toObject c) "company_id" = c := by
  cases c <;> simp [lookupKey, User.toObject, List.find?_cons]


theorem sanitized_lookup (user : User) (c : Option JVal) :
    lookupKey (deleteKey (user.toObject c) "password") "password" = none ∧
    (∀ key, key ≠ "password" → key ≠ "company_id" →
      lookupKey (deleteKey (user.toObject c) "password") key = lookupKey user.stored key) ∧
    lookupKey (deleteKey (user.toObject c) "password") "company_id" = c := by
  refine ⟨lookupKey_deleteKey_self _ _, ?_, ?_⟩
  · intro key h1 h2
    rw [lookupKey_deleteKey_ne _ _ _ h1]
    exact lookupKey_toObject_ne_company user _ _ key h2
  · rw [lookupKey_deleteKey_ne _ _ _ (by decide)]
    exact lookupKey_toObject_company user c

theorem paginateResults_data_mem {α : Type} [Doc α] (re : RegExpI) (model : List α) (q : Query)
    (o : Options) (env : Envelope α) (h : paginateResults re model q o = Except.ok env) :
    ∀ d ∈ env.data, d ∈ model := by
  obtain ⟨sq, _, _, _, _, _, _, hdata⟩ := paginateResults_ok_inv re model q o env h
  intro d hd
  rw [hdata] at hd
  have h1 := List.mem_of_mem_drop (List.mem_of_mem_take hd)
  have h2 := (applySort_perm o.sort (model.filter sq.matches)).mem_iff.1 h1
  exact (List.mem_filter.1 h2).1

theorem mem_updateFirst_of_find {α : Type} (p : α → Bool) (f : α → α) (a : α) :
    ∀ l : List α, l.find? p = some a → f a ∈ updateFirst p f l
  | [], h => by simp at h
  | d :: l, h => by
    cases hd : p d with
    | true =>
      simp only [List.find?_cons, hd] at h
      injection h with h
      subst h
      simp [updateFirst, hd]
    | false =>
      simp only [List.find?_cons, hd] at h
      simp [updateFirst, hd, mem_updateFirst_of_find p f a l h]

/-- C27, as stated, fails: `getUserById` answers with `company_id` populated,
the document `{ _id, name }` of the company, where the stored user holds the
reference. -/
theorem getUserById_company_populated :
    ((UserController.getUserById storeUsers adminOfOne 10).1 =
      Outcome.json 200
        [("_id", JVal.val (Val.oid 10)),
         ("company_id", JVal.doc [("_id", Val.oid 1), ("name", Val.str "One")]),
         ("name", JVal.val (Val.str "Sam")), ("email", JVal.val (Val.str "sam@one.io")),
         ("role", JVal.val (Val.str "sales")), ("created_at", JVal.val (Val.date 0)),
         ("updatedAt", JVal.val (Val.date 0))]) ∧
    lookupKey salesOfOne.stored "company_id" = some (JVal.val (Val.oid 1)) := by
  decide

/-- C27 (amended): the user objects answered by `getUsers`, `getUserById`,
`createUser` and `updateUser` carry no `password` key and, `company_id` apart,
every other key with the value of the stored user; `createUser` and
`updateUser` answer `company_id` as stored, `getUserById` and `getUsers`
answer it populated (the company document, or `null` when no company has the
id). -/
theorem user_answers_without_password (re : RegExpI) (hash : String → String) (now : Nat)
    (s : Store) (u : User) :
    (∀ id status obj, (UserController.getUserById s u id).1 = Outcome.json status obj →
      ∃ user, findById s.users id = some user ∧ lookupKey obj "password" = none ∧
        (∀ key, key ≠ "password" → key ≠ "company_id" →
          lookupKey obj key = lookupKey user.stored key) ∧
        lookupKey obj "company_id" = populateCompany s (some ["name"]) user.company_id) ∧
    (∀ p status env, (UserController.getUsers re s u p).1 = Outcome.json status env →
      ∀ obj ∈ env.data, ∃ user ∈ s.users, lookupKey obj "password" = none ∧
        (∀ key, key ≠ "password" → key ≠ "company_id" →
          lookupKey obj key = lookupKey user.stored key) ∧
        lookupKey obj "company_id" = populateCompany s none user.company_id) ∧
    (∀ body status obj, (UserController.createUser hash now s u body).1 = Outcome.json status obj →
      ∃ user, (UserController.createUser hash now s u body).2.users = s.users ++ [user] ∧
        lookupKey obj "password" = none ∧
        ∀ key, key ≠ "password" → lookupKey obj key = lookupKey user.stored key) ∧
    (∀ id body status obj,
      (UserController.updateUser hash now s u id body).1 = Outcome.json status obj →
      ∃ user ∈ (UserController.updateUser hash now s u id body).2.users,
        lookupKey obj "password" = none ∧
        ∀ key, key ≠ "password" → lookupKey obj key = lookupKey user.stored key) := by
  refine ⟨?_, ?_, ?_, ?_⟩
  · intro id status obj h
    unfold UserController.getUserById at h
    cases hf : findById s.users id with
    | none => simp [hf] at h
    | some user =>
      simp only [hf] at h
      injection h with _ hobj
      subst hobj
      exact ⟨user, rfl, sanitized_lookup user _⟩
  · intro p status env h obj hobj
    unfold UserController.getUsers at h
    simp only at h
    split at h
    · cases h
    · rename_i results hres
      injection h with _ henv
      subst henv
      simp only [List.mem_map] at hobj
      obtain ⟨user, huser, rfl⟩ := hobj
      exact ⟨user, paginateResults_data_mem re _ _ _ _ hres user huser, sanitized_lookup user _⟩
  · intro body status obj h
    unfold UserController.createUser at h ⊢
    cases hf : findOne s.users { fields := [("email", Cond.eq (optStr body.email))] } with
    | some _ => simp [hf] at h
    | none =>
      simp only [hf] at h ⊢
      split at h
      · cases h
      · rename_i hcond
        simp only [hcond, if_false]
        injection h with _ hobj
        subst hobj
        exact ⟨_, rfl, lookupKey_deleteKey_self _ _,
          fun key hk => lookupKey_deleteKey_ne _ _ _ hk⟩
  · intro id body status obj h
    cases hf : findById s.users id with
    | none => simp [UserController.updateUser, hf] at h
    | some user =>
      cases hcross : (UserController.crossCompanyCheck u user
          "Not authorized to update this user" : Option (Outcome JObject)) with
      | some failure =>
        exfalso
        simp only [UserController.updateUser, hf, hcross] at h
        subst h
        unfold UserController.crossCompanyCheck at hcross
        split at hcross
        · split at hcross
          · simp [typeError] at hcross
          · split at hcross <;> simp at hcross
        · simp at hcross
      | none =>
        simp only [UserController.updateUser, hf, hcross] at h ⊢
        split at h
        · cases h
        · rename_i hcond
          simp only [hcond, if_false]
          injection h with _ hobj
          subst hobj
          refine ⟨_, ?_, lookupKey_deleteKey_self _ _,
            fun key hk => lookupKey_deleteKey_ne _ _ _ hk⟩
          have hid : user._id = id := (findById_mem hf).2
          have := mem_updateFirst_of_find (fun d : User => Doc.id d == id)
            (fun _ => UserController.applyUserBody hash now user body) user s.users hf
          simpa [updateById, hid] using this

/-- Witness for `user_answers_without_password`: the answer of `getUserById`
for the stored sales user has no `password` key. -/
theorem user_answers_without_password_witness :
    ∃ user, findById storeUsers.users 10 = some user ∧
      lookupKey (deleteKey (salesOfOne.toObject
        (populateCompany storeUsers (some ["name"]) salesOfOne.company_id)) "password")
        "password" = none :=
  let ⟨user, h1, h2, _⟩ := (user_answers_without_password noRegExp hashStub 5 storeUsers
    adminOfOne).1 10 200 _ rfl
  ⟨user, h1, h2⟩

end SalesBackend
